import Mathlib

/-!
# Verification of the asana_clone authorization / domain-invariant core

This file shallowly embeds the data model (`app/models/*.py`), the request
payload schemas (`app/schemas/*.py`) and the router operations
(`app/routers/*.py`) of the repository, and proves the frozen claims about
membership gating, ownership checks, task completion, custom-field value
typing, cascade/nullify deletion, tag/task association, idempotency,
attachment targeting, pagination and partial updates.

Modelling conventions:
* integer ids and timestamps are `Nat`; SQL `Numeric` is `Int` (no claim
  does arithmetic on it); strings are `String`;
* an HTTP handler becomes a pure function `Store → … → Except Failure (α × Store)`;
  a raised `HTTPException(status, detail)` becomes `.error`, which carries no
  store: the transaction aborts with no persisted side effect, exactly as an
  exception raised before `db.commit()`;
* `pydantic` payloads become structures whose optional fields are `Option`;
  `model_dump(exclude_none=True)` makes an explicit JSON `null`
  indistinguishable from an omitted field, so a single `none` encodes both;
* ORM delete cascades (`cascade="all,delete-orphan"` relationships and the
  `ondelete` foreign-key clauses of the models / the alembic migration) are
  applied by the delete operations: deleting a section nullifies
  `task.section_id` (`ondelete="SET NULL"`, no ORM delete cascade), deleting a
  project deletes its sections, tasks and custom fields
  (`cascade="all,delete-orphan"`), and so on;
* `updated_at` columns carry `onupdate=func.now()`: they are refreshed
  whenever the update writes at least one attribute;
* `datetime.now(timezone.utc)` becomes an explicit `now : Nat` argument.
-/

namespace AsanaClone

/-! ## Entity rows (app/models) -/

/-- `app/models/user.py`, class `User` (credential hash kept opaque). -/
structure User where
  id : Nat
  email : String
  name : String
  password_hash : String
  created_at : Nat
  updated_at : Nat
  deriving Repr, DecidableEq

/-- `app/models/workspace.py`, class `Workspace`. -/
structure Workspace where
  id : Nat
  name : String
  owner_id : Nat
  created_at : Nat
  updated_at : Nat
  deriving Repr, DecidableEq

/-- `app/models/workspace.py`, class `UserWorkspace` (the Membership row). -/
structure UserWorkspace where
  user_id : Nat
  workspace_id : Nat
  deriving Repr, DecidableEq

/-- `app/models/team.py`, class `Team`. -/
structure Team where
  id : Nat
  name : String
  workspace_id : Nat
  created_at : Nat
  deriving Repr, DecidableEq

/-- `app/models/team.py`, class `UserTeam`. -/
structure UserTeam where
  user_id : Nat
  team_id : Nat
  deriving Repr, DecidableEq

/-- `app/models/project.py`, class `Project`. -/
structure Project where
  id : Nat
  name : String
  description : Option String
  workspace_id : Nat
  team_id : Option Nat
  owner_id : Option Nat
  is_public : Bool
  created_at : Nat
  updated_at : Nat
  deriving Repr, DecidableEq

/-- `app/models/section.py`, class `Section`. -/
structure Section where
  id : Nat
  name : String
  project_id : Nat
  position : Nat
  created_at : Nat
  deriving Repr, DecidableEq

/-- `app/models/task.py`, class `Task`. -/
structure Task where
  id : Nat
  name : String
  description : Option String
  project_id : Nat
  section_id : Option Nat
  parent_task_id : Option Nat
  assignee_id : Option Nat
  creator_id : Nat
  due_date : Option Nat
  completed_at : Option Nat
  position : Nat
  created_at : Nat
  updated_at : Nat
  deriving Repr, DecidableEq

/-- `Task.completed` is a derived property: true iff `completed_at` is set. -/
def Task.completed (t : Task) : Bool :=
  t.completed_at.isSome

/-- `app/models/comment.py`, class `Comment`. -/
structure Comment where
  id : Nat
  content : String
  task_id : Nat
  author_id : Nat
  created_at : Nat
  updated_at : Nat
  deriving Repr, DecidableEq

/-- `app/models/attachment.py`, class `Attachment`. -/
structure Attachment where
  id : Nat
  filename : String
  url : String
  task_id : Option Nat
  comment_id : Option Nat
  uploader_id : Option Nat
  created_at : Nat
  deriving Repr, DecidableEq

/-- `app/models/tag.py`, class `Tag`. -/
structure Tag where
  id : Nat
  name : String
  color : Option String
  workspace_id : Nat
  created_at : Nat
  deriving Repr, DecidableEq

/-- `app/models/task.py`, class `TaskTag` (task/tag association row). -/
structure TaskTag where
  task_id : Nat
  tag_id : Nat
  deriving Repr, DecidableEq

/-- `app/models/task.py`, class `TaskFollower`. -/
structure TaskFollower where
  task_id : Nat
  user_id : Nat
  deriving Repr, DecidableEq

/-- The five declared custom-field types (`Literal` in `app/schemas/custom_field.py`). -/
inductive FieldType
  | text
  | number
  | date
  | dropdown
  | boolean
  deriving Repr, DecidableEq

/-- `app/models/custom_field.py`, class `CustomField`. -/
structure CustomField where
  id : Nat
  name : String
  type : FieldType
  project_id : Nat
  created_at : Nat
  deriving Repr, DecidableEq

/-- `app/models/custom_field.py`, class `CustomFieldOption`. -/
structure CustomFieldOption where
  id : Nat
  custom_field_id : Nat
  value : String
  color : Option String
  position : Nat
  deriving Repr, DecidableEq

/-- `app/models/task.py`, class `TaskCustomFieldValue`. -/
structure TaskCustomFieldValue where
  id : Nat
  task_id : Nat
  custom_field_id : Nat
  value_text : Option String
  value_number : Option Int
  value_date : Option Nat
  value_boolean : Option Bool
  created_at : Nat
  deriving Repr, DecidableEq

/-! ## The entity store (the relational database) -/

/-- The whole relational state, one list per table, plus the autoincrement
counter used for fresh primary keys. -/
structure Store where
  users : List User
  workspaces : List Workspace
  memberships : List UserWorkspace
  teams : List Team
  user_teams : List UserTeam
  projects : List Project
  sections : List Section
  tasks : List Task
  comments : List Comment
  attachments : List Attachment
  tags : List Tag
  task_tags : List TaskTag
  custom_fields : List CustomField
  custom_field_options : List CustomFieldOption
  custom_field_values : List TaskCustomFieldValue
  task_followers : List TaskFollower
  next_id : Nat
  deriving Repr, DecidableEq

/-- `db.get(User, uid)` — point lookup by primary key. -/
def Store.findUser (s : Store) (uid : Nat) : Option User :=
  s.users.find? (fun u => u.id == uid)

/-- `db.get(Workspace, wid)`. -/
def Store.findWorkspace (s : Store) (wid : Nat) : Option Workspace :=
  s.workspaces.find? (fun w => w.id == wid)

/-- `db.get(Team, tid)`. -/
def Store.findTeam (s : Store) (tid : Nat) : Option Team :=
  s.teams.find? (fun t => t.id == tid)

/-- `db.get(Project, pid)`. -/
def Store.findProject (s : Store) (pid : Nat) : Option Project :=
  s.projects.find? (fun p => p.id == pid)

/-- `db.get(Section, sid)`. -/
def Store.findSection (s : Store) (sid : Nat) : Option Section :=
  s.sections.find? (fun x => x.id == sid)

/-- `db.get(Task, tid)` (and the `_resolve_task` select in `routers/tasks.py`,
whose `selectinload` options only eager-load relations). -/
def Store.findTask (s : Store) (tid : Nat) : Option Task :=
  s.tasks.find? (fun t => t.id == tid)

/-- `db.get(Comment, cid)`. -/
def Store.findComment (s : Store) (cid : Nat) : Option Comment :=
  s.comments.find? (fun c => c.id == cid)

/-- `db.get(Attachment, aid)`. -/
def Store.findAttachment (s : Store) (aid : Nat) : Option Attachment :=
  s.attachments.find? (fun a => a.id == aid)

/-- `db.get(Tag, gid)`. -/
def Store.findTag (s : Store) (gid : Nat) : Option Tag :=
  s.tags.find? (fun g => g.id == gid)

/-- `_fetch_field` in `routers/custom_fields.py` (`selectinload(options)` only
eager-loads; the lookup is by primary key). -/
def Store.findCustomField (s : Store) (fid : Nat) : Option CustomField :=
  s.custom_fields.find? (fun f => f.id == fid)

/-- `db.get(UserWorkspace, (uid, wid)) is not None` — the sole workspace
membership predicate. -/
def Store.isMember (s : Store) (uid wid : Nat) : Bool :=
  s.memberships.any (fun m => m.user_id == uid && m.workspace_id == wid)

/-- `db.get(UserTeam, (uid, tid)) is not None`. -/
def Store.isTeamMember (s : Store) (uid tid : Nat) : Bool :=
  s.user_teams.any (fun m => m.user_id == uid && m.team_id == tid)

/-- The options of a custom field (`CustomField.options` relationship). -/
def Store.optionsOf (s : Store) (fid : Nat) : List CustomFieldOption :=
  s.custom_field_options.filter (fun o => o.custom_field_id == fid)

/-- The stored value row for `(task, field)` — the select in
`set_task_custom_field`. -/
def Store.findValueRow (s : Store) (tid fid : Nat) : Option TaskCustomFieldValue :=
  s.custom_field_values.find? (fun v => v.task_id == tid && v.custom_field_id == fid)

/-! ## Typed failures

Every handler rejection is `raise HTTPException(status_code, detail)`. The
status code is the stable outward signal of the failure kind: 404 NotFound,
403 Forbidden, 400 BadRequest. `internalError` stands for an unhandled
exception surfacing as HTTP 500 (e.g. `task.project.workspace_id` on a task
whose project row is missing). -/
inductive Failure
  | notFound (detail : String)
  | forbidden (detail : String)
  | badRequest (detail : String)
  | internalError (detail : String)
  deriving Repr, DecidableEq

/-- The HTTP status code a failure maps to — the client-visible signal. -/
def Failure.statusCode : Failure → Nat
  | .notFound _ => 404
  | .forbidden _ => 403
  | .badRequest _ => 400
  | .internalError _ => 500

deriving instance DecidableEq for Except

/-- Result of an operation: a typed failure, or a value together with the
post-transaction store. -/
abbrev OpResult (α : Type) := Except Failure (α × Store)

/-! ## Request payloads (app/schemas)

Optional pydantic fields are `Option`; every update schema is dumped with
`exclude_none=True`, so `none` covers both "omitted" and "explicit null". -/

/-- `WorkspaceCreate`. -/
structure WorkspaceCreate where
  name : String
  deriving Repr, DecidableEq

/-- `WorkspaceUpdate`. -/
structure WorkspaceUpdate where
  name : Option String := none
  deriving Repr, DecidableEq

/-- `ProjectCreate`. -/
structure ProjectCreate where
  name : String
  description : Option String := none
  workspace_id : Nat
  team_id : Option Nat := none
  is_public : Bool := true
  deriving Repr, DecidableEq

/-- `ProjectUpdate`. -/
structure ProjectUpdate where
  name : Option String := none
  description : Option String := none
  team_id : Option Nat := none
  is_public : Option Bool := none
  deriving Repr, DecidableEq

/-- `SectionCreate`. -/
structure SectionCreate where
  name : String
  project_id : Nat
  position : Nat := 0
  deriving Repr, DecidableEq

/-- `SectionUpdate`. -/
structure SectionUpdate where
  name : Option String := none
  position : Option Nat := none
  deriving Repr, DecidableEq

/-- `TaskCreate`. -/
structure TaskCreate where
  name : String
  project_id : Nat
  description : Option String := none
  section_id : Option Nat := none
  parent_task_id : Option Nat := none
  assignee_id : Option Nat := none
  due_date : Option Nat := none
  position : Nat := 0
  completed : Option Bool := none
  deriving Repr, DecidableEq

/-- `TaskUpdate`. -/
structure TaskUpdate where
  name : Option String := none
  description : Option String := none
  section_id : Option Nat := none
  assignee_id : Option Nat := none
  due_date : Option Nat := none
  completed : Option Bool := none
  position : Option Nat := none
  deriving Repr, DecidableEq

/-- `TagCreate`. -/
structure TagCreate where
  name : String
  workspace_id : Nat
  color : Option String := none
  deriving Repr, DecidableEq

/-- `TagUpdate`. -/
structure TagUpdate where
  name : Option String := none
  color : Option String := none
  deriving Repr, DecidableEq

/-- `CommentBody` (create) — content only; `CommentUpdate` has optional content. -/
structure CommentUpdate where
  content : Option String := none
  deriving Repr, DecidableEq

/-- `AttachmentCreate` (`url : HttpUrl` kept as a string). -/
structure AttachmentCreate where
  filename : String
  url : String
  comment_id : Option Nat := none
  deriving Repr, DecidableEq

/-- `TeamCreate`. -/
structure TeamCreate where
  name : String
  workspace_id : Nat
  deriving Repr, DecidableEq

/-- `TeamMemberUpdate`. -/
structure TeamMemberUpdate where
  user_id : Nat
  deriving Repr, DecidableEq

/-- One option row of `CustomFieldCreate.options`. -/
structure CustomFieldOptionPayload where
  value : String
  color : Option String := none
  position : Option Nat := none
  deriving Repr, DecidableEq

/-- `CustomFieldCreate`. -/
structure CustomFieldCreate where
  name : String
  type : FieldType
  project_id : Nat
  options : Option (List CustomFieldOptionPayload) := none
  deriving Repr, DecidableEq

/-- `CustomFieldValuePayload` — the four typed value slots. -/
structure CustomFieldValuePayload where
  value_text : Option String := none
  value_number : Option Int := none
  value_date : Option Nat := none
  value_boolean : Option Bool := none
  deriving Repr, DecidableEq

/-- Query parameters of `GET /tasks` (`list_tasks`). FastAPI validates
`1 ≤ limit ≤ 100` and `0 ≤ offset` at the transport layer. -/
structure TaskListQuery where
  workspace_id : Nat
  project_id : Option Nat := none
  assignee : Option String := none
  completed : Option Bool := none
  completed_since : Option Nat := none
  limit : Nat := 20
  offset : Nat := 0
  deriving Repr, DecidableEq

/-- The `(data, pagination)` pair returned by `list_tasks`
(`PaginatedTasks` / `PaginationMeta` in `app/schemas/task.py`). -/
structure PaginatedTasks where
  data : List Task
  total : Nat
  limit : Nat
  offset : Nat
  deriving Repr, DecidableEq

/-! ## Workspace operations (`app/routers/workspaces.py`) -/

/-- `create_workspace`: inserts the workspace and, atomically in the same
transaction, a membership row for the creator. -/
def create_workspace (s : Store) (actor now : Nat) (payload : WorkspaceCreate) :
    OpResult Workspace :=
  let w : Workspace :=
    { id := s.next_id, name := payload.name, owner_id := actor,
      created_at := now, updated_at := now }
  .ok (w, { s with
    workspaces := s.workspaces ++ [w],
    memberships := s.memberships ++ [{ user_id := actor, workspace_id := w.id }],
    next_id := s.next_id + 1 })

/-- `read_workspace`: 404 when absent, 403 when the actor is not a member. -/
def read_workspace (s : Store) (actor : Nat) (workspace_id : Nat) :
    Except Failure Workspace :=
  match s.findWorkspace workspace_id with
  | none => .error (.notFound "Workspace not found")
  | some w =>
    if s.isMember actor workspace_id then .ok w
    else .error (.forbidden "Not a member of workspace")

/-- `update_workspace`: owner-only; `exclude_none` merge of the single
optional field; `updated_at` refreshed when something was written. -/
def update_workspace (s : Store) (actor now : Nat) (workspace_id : Nat)
    (payload : WorkspaceUpdate) : OpResult Workspace :=
  match s.findWorkspace workspace_id with
  | none => .error (.notFound "Workspace not found")
  | some w =>
    if w.owner_id == actor then
      let w' : Workspace :=
        match payload.name with
        | some n => { w with name := n, updated_at := now }
        | none => w
      .ok (w', { s with
        workspaces := s.workspaces.map (fun x => if x.id == workspace_id then w' else x) })
    else .error (.forbidden "Only owner may update workspace")

/-- FK `ondelete="SET NULL"` of `projects.team_id`: clear references to
deleted teams. -/
def nullTeamRefs (projects : List Project) (deadTeams : List Nat) : List Project :=
  projects.map (fun p =>
    match p.team_id with
    | some tid => if deadTeams.contains tid then { p with team_id := none } else p
    | none => p)

/-- Transitive closure of the `parent_task_id` CASCADE: starting from a seed
of doomed task ids, repeatedly add tasks whose parent is doomed. Fuel is the
task-table size, enough to reach the fixpoint. -/
def subtaskClosure (tasks : List Task) : List Nat → Nat → List Nat
  | dead, 0 => dead
  | dead, fuel + 1 =>
    let extra := (tasks.filter (fun t =>
      (match t.parent_task_id with
       | some p => dead.contains p
       | none => false) && !dead.contains t.id)).map (fun t => t.id)
    if extra.isEmpty then dead else subtaskClosure tasks (dead ++ extra) fuel

/-- Cascade of a set of deleted tasks: their comments, tag links, follower
rows and custom-field values are deleted (`cascade="all,delete-orphan"` /
FK CASCADE); attachments pointing at a deleted task or at a deleted comment
get the reference nulled (the ORM nullifies, no delete cascade is configured
on `Task.attachments` / `Comment.attachments`). -/
def removeTasksCascade (s : Store) (dead : List Nat) : Store :=
  let deadComments := (s.comments.filter (fun c => dead.contains c.task_id)).map (fun c => c.id)
  { s with
    tasks := s.tasks.filter (fun t => !dead.contains t.id),
    comments := s.comments.filter (fun c => !dead.contains c.task_id),
    attachments := s.attachments.map (fun a =>
      let a := match a.task_id with
        | some tid => if dead.contains tid then { a with task_id := none } else a
        | none => a
      match a.comment_id with
      | some cid => if deadComments.contains cid then { a with comment_id := none } else a
      | none => a),
    task_tags := s.task_tags.filter (fun l => !dead.contains l.task_id),
    custom_field_values := s.custom_field_values.filter (fun v => !dead.contains v.task_id),
    task_followers := s.task_followers.filter (fun f => !dead.contains f.task_id) }

/-- Cascade of one deleted project (`cascade="all,delete-orphan"` on
`Project.sections/tasks/custom_fields`, then the per-task and per-field
cascades). -/
def projectCascadeStore (s : Store) (pid : Nat) : Store :=
  let deadTasks := subtaskClosure s.tasks
    ((s.tasks.filter (fun t => t.project_id == pid)).map (fun t => t.id)) s.tasks.length
  let deadFields := (s.custom_fields.filter (fun f => f.project_id == pid)).map (fun f => f.id)
  let s := removeTasksCascade s deadTasks
  { s with
    projects := s.projects.filter (fun p => p.id != pid),
    sections := s.sections.filter (fun x => x.project_id != pid),
    custom_fields := s.custom_fields.filter (fun f => f.project_id != pid),
    custom_field_options :=
      s.custom_field_options.filter (fun o => !deadFields.contains o.custom_field_id),
    custom_field_values :=
      s.custom_field_values.filter (fun v => !deadFields.contains v.custom_field_id) }

/-- `delete_workspace`: owner-only. Cascades to teams (and their membership
rows), projects (full project cascade), workspace membership rows and tags
(and their task links); `projects.team_id` references to deleted teams are
nulled (SET NULL). -/
def delete_workspace (s : Store) (actor : Nat) (workspace_id : Nat) :
    OpResult Unit :=
  match s.findWorkspace workspace_id with
  | none => .error (.notFound "Workspace not found")
  | some w =>
    if w.owner_id == actor then
      let deadProjects := (s.projects.filter (fun p => p.workspace_id == workspace_id)).map (fun p => p.id)
      let deadTeams := (s.teams.filter (fun t => t.workspace_id == workspace_id)).map (fun t => t.id)
      let deadTags := (s.tags.filter (fun g => g.workspace_id == workspace_id)).map (fun g => g.id)
      let s' := deadProjects.foldl projectCascadeStore s
      .ok ((), { s' with
        workspaces := s'.workspaces.filter (fun x => x.id != workspace_id),
        memberships := s'.memberships.filter (fun m => m.workspace_id != workspace_id),
        teams := s'.teams.filter (fun t => t.workspace_id != workspace_id),
        user_teams := s'.user_teams.filter (fun m => !deadTeams.contains m.team_id),
        projects := nullTeamRefs (s'.projects.filter (fun p => p.workspace_id != workspace_id)) deadTeams,
        tags := s'.tags.filter (fun g => g.workspace_id != workspace_id),
        task_tags := s'.task_tags.filter (fun l => !deadTags.contains l.tag_id) })
    else .error (.forbidden "Only owner may delete workspace")

/-! ## Project operations (`app/routers/projects.py`) -/

/-- `list_projects`: membership-gated listing of a workspace's projects. -/
def list_projects (s : Store) (actor : Nat) (workspace_id : Nat) :
    Except Failure (List Project) :=
  if s.isMember actor workspace_id then
    .ok (s.projects.filter (fun p => p.workspace_id == workspace_id))
  else .error (.forbidden "Not a member of workspace")

/-- `create_project`: membership-gated; the creator becomes the owner. -/
def create_project (s : Store) (actor now : Nat) (payload : ProjectCreate) :
    OpResult Project :=
  if s.isMember actor payload.workspace_id then
    let p : Project :=
      { id := s.next_id, name := payload.name, description := payload.description,
        workspace_id := payload.workspace_id, team_id := payload.team_id,
        owner_id := some actor, is_public := payload.is_public,
        created_at := now, updated_at := now }
    .ok (p, { s with projects := s.projects ++ [p], next_id := s.next_id + 1 })
  else .error (.forbidden "Not a member of workspace")

/-- `read_project`: 404 when absent, then membership check. -/
def read_project (s : Store) (actor : Nat) (project_id : Nat) :
    Except Failure Project :=
  match s.findProject project_id with
  | none => .error (.notFound "Project not found")
  | some p =>
    if s.isMember actor p.workspace_id then .ok p
    else .error (.forbidden "Not a member of workspace")

/-- The `exclude_none` field-by-field merge of `update_project`;
`updated_at` (onupdate) refreshed when at least one attribute was written. -/
def applyProjectUpdate (p : Project) (u : ProjectUpdate) (now : Nat) : Project :=
  let p' : Project := { p with
    name := u.name.getD p.name,
    description := match u.description with | some d => some d | none => p.description,
    team_id := match u.team_id with | some t => some t | none => p.team_id,
    is_public := u.is_public.getD p.is_public }
  if u.name.isSome || u.description.isSome || u.team_id.isSome || u.is_public.isSome then
    { p' with updated_at := now }
  else p'

/-- `update_project`: owner-only (no membership check on this path). -/
def update_project (s : Store) (actor now : Nat) (project_id : Nat)
    (payload : ProjectUpdate) : OpResult Project :=
  match s.findProject project_id with
  | none => .error (.notFound "Project not found")
  | some p =>
    if p.owner_id == some actor then
      let p' := applyProjectUpdate p payload now
      .ok (p', { s with
        projects := s.projects.map (fun x => if x.id == project_id then p' else x) })
    else .error (.forbidden "Only owner may update project")

/-- `delete_project`: owner-only; cascades per the FK/ORM policy. -/
def delete_project (s : Store) (actor : Nat) (project_id : Nat) : OpResult Unit :=
  match s.findProject project_id with
  | none => .error (.notFound "Project not found")
  | some p =>
    if p.owner_id == some actor then
      .ok ((), projectCascadeStore s project_id)
    else .error (.forbidden "Only owner may delete project")

/-! ## Section operations (`app/routers/sections.py`) -/

/-- `_assert_workspace_membership` of `routers/sections.py`. -/
def _assert_workspace_membership (s : Store) (user_id : Nat) (project : Project) :
    Except Failure Unit :=
  if s.isMember user_id project.workspace_id then .ok ()
  else .error (.forbidden "Not a member of workspace")

/-- `list_sections`. -/
def list_sections (s : Store) (actor : Nat) (project_id : Nat) :
    Except Failure (List Section) :=
  match s.findProject project_id with
  | none => .error (.notFound "Project not found")
  | some p =>
    match _assert_workspace_membership s actor p with
    | .error e => .error e
    | .ok () => .ok (s.sections.filter (fun x => x.project_id == project_id))

/-- `create_section`. -/
def create_section (s : Store) (actor now : Nat) (payload : SectionCreate) :
    OpResult Section :=
  match s.findProject payload.project_id with
  | none => .error (.notFound "Project not found")
  | some p =>
    match _assert_workspace_membership s actor p with
    | .error e => .error e
    | .ok () =>
      let sec : Section :=
        { id := s.next_id, name := payload.name, project_id := payload.project_id,
          position := payload.position, created_at := now }
      .ok (sec, { s with sections := s.sections ++ [sec], next_id := s.next_id + 1 })

/-- `update_section` (`exclude_none` merge; section has no `updated_at`). -/
def update_section (s : Store) (actor : Nat) (section_id : Nat)
    (payload : SectionUpdate) : OpResult Section :=
  match s.findSection section_id with
  | none => .error (.notFound "Section not found")
  | some sec =>
    match s.findProject sec.project_id with
    | none => .error (.notFound "Project not found")
    | some p =>
      match _assert_workspace_membership s actor p with
      | .error e => .error e
      | .ok () =>
        let sec' : Section := { sec with
          name := payload.name.getD sec.name,
          position := payload.position.getD sec.position }
        .ok (sec', { s with
          sections := s.sections.map (fun x => if x.id == section_id then sec' else x) })

/-- `delete_section`: the section row is removed; tasks pointing at it keep
existing with `section_id` nulled (FK `ondelete="SET NULL"`, and the ORM
relationship `Section.tasks` has no delete cascade). -/
def delete_section (s : Store) (actor : Nat) (section_id : Nat) : OpResult Unit :=
  match s.findSection section_id with
  | none => .error (.notFound "Section not found")
  | some sec =>
    match s.findProject sec.project_id with
    | none => .error (.notFound "Project not found")
    | some p =>
      match _assert_workspace_membership s actor p with
      | .error e => .error e
      | .ok () =>
        .ok ((), { s with
          sections := s.sections.filter (fun x => x.id != section_id),
          tasks := s.tasks.map (fun t =>
            if t.section_id == some section_id then { t with section_id := none } else t) })

/-! ## Task operations (`app/routers/tasks.py`) -/

/-- `_assert_workspace_access` of `routers/tasks.py`. -/
def _assert_workspace_access (s : Store) (user_id workspace_id : Nat) :
    Except Failure Unit :=
  if s.isMember user_id workspace_id then .ok ()
  else .error (.forbidden "Not a member of workspace")

/-- Decimal parsing of the assignee filter, Python `int(assignee)`: optional
sign followed by decimal digits. (Python additionally tolerates surrounding
whitespace and digit-group underscores — cosmetic acceptance differences that
no behaviour in this file depends on.) Implemented over the character list so
it evaluates by kernel reduction. -/
def parseIntLiteral (a : String) : Option Int :=
  let digits := fun (cs : List Char) =>
    cs.foldl (fun acc c =>
      match acc with
      | none => none
      | some n => if c.isDigit then some (n * 10 + (c.toNat - '0'.toNat)) else none)
      (some (0 : Nat))
  match a.data with
  | [] => none
  | '-' :: rest => if rest.isEmpty then none else (digits rest).map (fun n => -(n : Int))
  | '+' :: rest => if rest.isEmpty then none else (digits rest).map (fun n => (n : Int))
  | cs => (digits cs).map (fun n => (n : Int))

/-- The `assignee` query parameter: falsy strings are skipped, `"me"` resolves
to the acting user, a numeric literal (Python `int(...)`) to that id, anything
else is a 400. -/
def resolveAssigneeFilter (actor : Nat) (assignee : Option String) :
    Except Failure (Option Int) :=
  match assignee with
  | none => .ok none
  | some a =>
    if a = "" then .ok none
    else if a = "me" then .ok (some (Int.ofNat actor))
    else
      match parseIntLiteral a with
      | some v => .ok (some v)
      | none => .error (.badRequest "Invalid assignee filter")

/-- The `base_filters` conjunction of `list_tasks` (shared by the page query
and the count query): join on the task's project restricted to the workspace,
then the optional project / assignee / completed / completed_since filters. -/
def taskMatches (s : Store) (q : TaskListQuery) (assigneeF : Option Int) (t : Task) : Bool :=
  (s.projects.any (fun p => p.id == t.project_id && p.workspace_id == q.workspace_id))
  && (match q.project_id with
      | some pid => t.project_id == pid
      | none => true)
  && (match assigneeF with
      | some v => t.assignee_id.map Int.ofNat == some v
      | none => true)
  && (match q.completed with
      | some true => t.completed_at.isSome
      | some false => t.completed_at.isNone
      | none => true)
  && (match q.completed_since with
      | some since => t.completed_at.isSome && since ≤ t.completed_at.getD 0
      | none => true)

/-- `ORDER BY tasks.created_at DESC`. -/
def createdDesc (t₁ t₂ : Task) : Prop := t₂.created_at ≤ t₁.created_at

instance : DecidableRel createdDesc :=
  fun t₁ t₂ => inferInstanceAs (Decidable (t₂.created_at ≤ t₁.created_at))

/-- The rows `list_tasks` paginates: the filtered task table in descending
creation order. -/
def filteredTasks (s : Store) (q : TaskListQuery) (assigneeF : Option Int) : List Task :=
  (s.tasks.filter (taskMatches s q assigneeF)).insertionSort createdDesc

/-- `list_tasks`: membership check, filter resolution, one page of the
ordered filtered rows plus a `total` computed by a count query over the same
`base_filters`. -/
def list_tasks (s : Store) (actor : Nat) (q : TaskListQuery) :
    Except Failure PaginatedTasks :=
  match _assert_workspace_access s actor q.workspace_id with
  | .error e => .error e
  | .ok () =>
    match resolveAssigneeFilter actor q.assignee with
    | .error e => .error e
    | .ok assigneeF =>
      let rows := filteredTasks s q assigneeF
      let total := (s.tasks.filter (taskMatches s q assigneeF)).length
      .ok { data := (rows.drop q.offset).take q.limit,
            total := total, limit := q.limit, offset := q.offset }

/-- `create_task`: resolve the project (404), check membership, then insert.
`completed=true` in the payload stamps `completed_at := now`; otherwise
`completed_at` starts `NULL`. -/
def create_task (s : Store) (actor now : Nat) (payload : TaskCreate) :
    OpResult Task :=
  match s.findProject payload.project_id with
  | none => .error (.notFound "Project not found")
  | some project =>
    match _assert_workspace_access s actor project.workspace_id with
    | .error e => .error e
    | .ok () =>
      let t : Task :=
        { id := s.next_id, name := payload.name, description := payload.description,
          project_id := payload.project_id, section_id := payload.section_id,
          parent_task_id := payload.parent_task_id, assignee_id := payload.assignee_id,
          creator_id := actor, due_date := payload.due_date,
          completed_at := if payload.completed == some true then some now else none,
          position := payload.position, created_at := now, updated_at := now }
      .ok (t, { s with tasks := s.tasks ++ [t], next_id := s.next_id + 1 })

/-- `read_task`: resolve task (404), its project (404), membership (403). -/
def read_task (s : Store) (actor : Nat) (task_id : Nat) : Except Failure Task :=
  match s.findTask task_id with
  | none => .error (.notFound "Task not found")
  | some t =>
    match s.findProject t.project_id with
    | none => .error (.notFound "Project not found")
    | some project =>
      match _assert_workspace_access s actor project.workspace_id with
      | .error e => .error e
      | .ok () => .ok t

/-- Whether the dumped `TaskUpdate` dict is non-empty, i.e. the session gets
dirtied and the `onupdate` hook refreshes `updated_at`. -/
def TaskUpdate.writesSomething (u : TaskUpdate) : Bool :=
  u.name.isSome || u.description.isSome || u.section_id.isSome || u.assignee_id.isSome
    || u.due_date.isSome || u.completed.isSome || u.position.isSome

/-- The body of `update_task` after authorization: the `exclude_none`
field-by-field `setattr` merge, then the popped `completed` flag translated
to setting/clearing `completed_at`. -/
def applyTaskUpdate (t : Task) (u : TaskUpdate) (now : Nat) : Task :=
  let t' : Task := { t with
    name := u.name.getD t.name,
    description := match u.description with | some d => some d | none => t.description,
    section_id := match u.section_id with | some v => some v | none => t.section_id,
    assignee_id := match u.assignee_id with | some v => some v | none => t.assignee_id,
    due_date := match u.due_date with | some v => some v | none => t.due_date,
    position := u.position.getD t.position }
  let t' : Task :=
    match u.completed with
    | some b => { t' with completed_at := if b then some now else none }
    | none => t'
  if u.writesSomething then { t' with updated_at := now } else t'

/-- `update_task` (PATCH): resolve task and project, membership, merge. -/
def update_task (s : Store) (actor now : Nat) (task_id : Nat) (payload : TaskUpdate) :
    OpResult Task :=
  match s.findTask task_id with
  | none => .error (.notFound "Task not found")
  | some t =>
    match s.findProject t.project_id with
    | none => .error (.notFound "Project not found")
    | some project =>
      match _assert_workspace_access s actor project.workspace_id with
      | .error e => .error e
      | .ok () =>
        let t' := applyTaskUpdate t payload now
        .ok (t', { s with
          tasks := s.tasks.map (fun x => if x.id == task_id then t' else x) })

/-- `delete_task`: resolve task and project, membership, then delete with the
subtask CASCADE and the per-task cascades. -/
def delete_task (s : Store) (actor : Nat) (task_id : Nat) : OpResult Unit :=
  match s.findTask task_id with
  | none => .error (.notFound "Task not found")
  | some t =>
    match s.findProject t.project_id with
    | none => .error (.notFound "Project not found")
    | some project =>
      match _assert_workspace_access s actor project.workspace_id with
      | .error e => .error e
      | .ok () =>
        .ok ((), removeTasksCascade s (subtaskClosure s.tasks [task_id] s.tasks.length))

/-! ## Tag operations (`app/routers/tags.py`) -/

namespace Tags

/-- `_ensure_workspace_membership` of `routers/tags.py` (note the
`(workspace_id, user_id)` argument order of the source). -/
def _ensure_workspace_membership (s : Store) (workspace_id user_id : Nat) :
    Except Failure Unit :=
  if s.isMember user_id workspace_id then .ok ()
  else .error (.forbidden "Not a member of workspace")

end Tags

/-- `list_tags` (no existence check on the workspace; membership only). -/
def list_tags (s : Store) (actor : Nat) (workspace_id : Nat) :
    Except Failure (List Tag) :=
  match Tags._ensure_workspace_membership s workspace_id actor with
  | .error e => .error e
  | .ok () => .ok (s.tags.filter (fun g => g.workspace_id == workspace_id))

/-- `create_tag` (the `(name, workspace_id)` unique constraint lives in the
database; the handler performs no application-level duplicate check). -/
def create_tag (s : Store) (actor now : Nat) (payload : TagCreate) : OpResult Tag :=
  match Tags._ensure_workspace_membership s payload.workspace_id actor with
  | .error e => .error e
  | .ok () =>
    let g : Tag :=
      { id := s.next_id, name := payload.name, color := payload.color,
        workspace_id := payload.workspace_id, created_at := now }
    .ok (g, { s with tags := s.tags ++ [g], next_id := s.next_id + 1 })

/-- `update_tag`: 404, membership against the tag's workspace, `exclude_none`
merge (tag has no `updated_at` column). -/
def update_tag (s : Store) (actor : Nat) (tag_id : Nat) (payload : TagUpdate) :
    OpResult Tag :=
  match s.findTag tag_id with
  | none => .error (.notFound "Tag not found")
  | some g =>
    match Tags._ensure_workspace_membership s g.workspace_id actor with
    | .error e => .error e
    | .ok () =>
      let g' : Tag := { g with
        name := payload.name.getD g.name,
        color := match payload.color with | some c => some c | none => g.color }
      .ok (g', { s with tags := s.tags.map (fun x => if x.id == tag_id then g' else x) })

/-- `delete_tag`: removes the tag; its task links go with it (FK CASCADE on
`task_tags.tag_id` / the ORM secondary relationship). -/
def delete_tag (s : Store) (actor : Nat) (tag_id : Nat) : OpResult Unit :=
  match s.findTag tag_id with
  | none => .error (.notFound "Tag not found")
  | some g =>
    match Tags._ensure_workspace_membership s g.workspace_id actor with
    | .error e => .error e
    | .ok () =>
      .ok ((), { s with
        tags := s.tags.filter (fun x => x.id != tag_id),
        task_tags := s.task_tags.filter (fun l => l.tag_id != tag_id) })

/-- `assign_tag_to_task`: 404 on task or tag, membership against the tag's
workspace, then the cross-workspace consistency check
`task.project.workspace_id == tag.workspace_id` (400 on mismatch; the source
dereferences `task.project`, so a dangling project would crash → 500), and an
idempotent `db.merge(TaskTag(...))` — a no-op when the row exists. -/
def assign_tag_to_task (s : Store) (actor : Nat) (task_id tag_id : Nat) :
    OpResult Unit :=
  match s.findTask task_id with
  | none => .error (.notFound "Task not found")
  | some t =>
    match s.findTag tag_id with
    | none => .error (.notFound "Tag not found")
    | some g =>
      match Tags._ensure_workspace_membership s g.workspace_id actor with
      | .error e => .error e
      | .ok () =>
        match s.findProject t.project_id with
        | none => .error (.internalError "task.project is None")
        | some project =>
          if project.workspace_id != g.workspace_id then
            .error (.badRequest "Tag and task must belong to same workspace")
          else
            let exists_ := s.task_tags.any (fun l => l.task_id == task_id && l.tag_id == tag_id)
            .ok ((), if exists_ then s
                     else { s with task_tags := s.task_tags ++ [{ task_id := task_id, tag_id := tag_id }] })

/-- `unassign_tag_from_task`: removing an absent association is a 404. -/
def unassign_tag_from_task (s : Store) (actor : Nat) (task_id tag_id : Nat) :
    OpResult Unit :=
  match s.findTask task_id with
  | none => .error (.notFound "Task not found")
  | some _ =>
    match s.findTag tag_id with
    | none => .error (.notFound "Tag not found")
    | some g =>
      match Tags._ensure_workspace_membership s g.workspace_id actor with
      | .error e => .error e
      | .ok () =>
        if s.task_tags.any (fun l => l.task_id == task_id && l.tag_id == tag_id) then
          .ok ((), { s with
            task_tags := s.task_tags.filter (fun l => !(l.task_id == task_id && l.tag_id == tag_id)) })
        else .error (.notFound "Tag not assigned to task")

/-! ## Team operations (`app/routers/teams.py`) -/

namespace Teams

/-- `_ensure_workspace_membership` of `routers/teams.py`. -/
def _ensure_workspace_membership (s : Store) (workspace_id user_id : Nat) :
    Except Failure Unit :=
  if s.isMember user_id workspace_id then .ok ()
  else .error (.forbidden "Not a member of workspace")

end Teams

/-- `list_teams`. -/
def list_teams (s : Store) (actor : Nat) (workspace_id : Nat) :
    Except Failure (List Team) :=
  match Teams._ensure_workspace_membership s workspace_id actor with
  | .error e => .error e
  | .ok () => .ok (s.teams.filter (fun t => t.workspace_id == workspace_id))

/-- `create_team`: membership-gated; atomically also inserts a `UserTeam`
row for the creator (via `db.merge`; the team is fresh, so it inserts). -/
def create_team (s : Store) (actor now : Nat) (payload : TeamCreate) : OpResult Team :=
  match Teams._ensure_workspace_membership s payload.workspace_id actor with
  | .error e => .error e
  | .ok () =>
    let t : Team :=
      { id := s.next_id, name := payload.name, workspace_id := payload.workspace_id,
        created_at := now }
    let s' := { s with teams := s.teams ++ [t], next_id := s.next_id + 1 }
    .ok (t, if s'.isTeamMember actor t.id then s'
            else { s' with user_teams := s'.user_teams ++ [{ user_id := actor, team_id := t.id }] })

/-- `add_team_member`: 404 on team, membership of the actor AND of the added
user against the team's workspace, then an idempotent `db.merge(UserTeam)`. -/
def add_team_member (s : Store) (actor : Nat) (team_id : Nat)
    (payload : TeamMemberUpdate) : OpResult Team :=
  match s.findTeam team_id with
  | none => .error (.notFound "Team not found")
  | some t =>
    match Teams._ensure_workspace_membership s t.workspace_id actor with
    | .error e => .error e
    | .ok () =>
      match Teams._ensure_workspace_membership s t.workspace_id payload.user_id with
      | .error e => .error e
      | .ok () =>
        .ok (t, if s.isTeamMember payload.user_id team_id then s
                else { s with
                  user_teams := s.user_teams ++ [{ user_id := payload.user_id, team_id := team_id }] })

/-- `remove_team_member`: absent membership is a 404. -/
def remove_team_member (s : Store) (actor : Nat) (team_id user_id : Nat) :
    OpResult Team :=
  match s.findTeam team_id with
  | none => .error (.notFound "Team not found")
  | some t =>
    match Teams._ensure_workspace_membership s t.workspace_id actor with
    | .error e => .error e
    | .ok () =>
      if s.isTeamMember user_id team_id then
        .ok (t, { s with
          user_teams := s.user_teams.filter (fun m => !(m.user_id == user_id && m.team_id == team_id)) })
      else .error (.notFound "Membership not found")

/-! ## Comment operations (`app/routers/comments.py`) -/

/-- `_assert_comment_access`: resolve the task's project (404), then
membership (403). -/
def _assert_comment_access (s : Store) (user_id : Nat) (t : Task) :
    Except Failure Unit :=
  match s.findProject t.project_id with
  | none => .error (.notFound "Project not found")
  | some project =>
    if s.isMember user_id project.workspace_id then .ok ()
    else .error (.forbidden "Not a member of workspace")

/-- `list_task_comments`. -/
def list_task_comments (s : Store) (actor : Nat) (task_id : Nat) :
    Except Failure (List Comment) :=
  match s.findTask task_id with
  | none => .error (.notFound "Task not found")
  | some t =>
    match _assert_comment_access s actor t with
    | .error e => .error e
    | .ok () => .ok (s.comments.filter (fun c => c.task_id == task_id))

/-- `create_task_comment`. -/
def create_task_comment (s : Store) (actor now : Nat) (task_id : Nat)
    (content : String) : OpResult Comment :=
  match s.findTask task_id with
  | none => .error (.notFound "Task not found")
  | some t =>
    match _assert_comment_access s actor t with
    | .error e => .error e
    | .ok () =>
      let c : Comment :=
        { id := s.next_id, content := content, task_id := task_id,
          author_id := actor, created_at := now, updated_at := now }
      .ok (c, { s with comments := s.comments ++ [c], next_id := s.next_id + 1 })

/-- `update_comment`: author-only (403 "Cannot edit this comment"), then the
task resolution and membership check; content written only when provided. -/
def update_comment (s : Store) (actor now : Nat) (comment_id : Nat)
    (payload : CommentUpdate) : OpResult Comment :=
  match s.findComment comment_id with
  | none => .error (.notFound "Comment not found")
  | some c =>
    if c.author_id == actor then
      match s.findTask c.task_id with
      | none => .error (.notFound "Task not found")
      | some t =>
        match _assert_comment_access s actor t with
        | .error e => .error e
        | .ok () =>
          let c' : Comment :=
            match payload.content with
            | some body => { c with content := body, updated_at := now }
            | none => c
          .ok (c', { s with
            comments := s.comments.map (fun x => if x.id == comment_id then c' else x) })
    else .error (.forbidden "Cannot edit this comment")

/-- `delete_comment`: author-only, then membership; attachments pointing at
the comment get the reference nulled (ORM nullify, as for task deletes). -/
def delete_comment (s : Store) (actor : Nat) (comment_id : Nat) : OpResult Unit :=
  match s.findComment comment_id with
  | none => .error (.notFound "Comment not found")
  | some c =>
    if c.author_id == actor then
      match s.findTask c.task_id with
      | none => .error (.notFound "Task not found")
      | some t =>
        match _assert_comment_access s actor t with
        | .error e => .error e
        | .ok () =>
          .ok ((), { s with
            comments := s.comments.filter (fun x => x.id != comment_id),
            attachments := s.attachments.map (fun a =>
              if a.comment_id == some comment_id then { a with comment_id := none } else a) })
    else .error (.forbidden "Cannot delete this comment")

/-! ## Attachment operations (`app/routers/attachments.py`) -/

namespace Attachments

/-- `_ensure_task_access` of `routers/attachments.py`: resolve the task's
project (404), then workspace membership (403). -/
def _ensure_task_access (s : Store) (user_id : Nat) (t : Task) :
    Except Failure Project :=
  match s.findProject t.project_id with
  | none => .error (.notFound "Project not found")
  | some project =>
    if s.isMember user_id project.workspace_id then .ok project
    else .error (.forbidden "Not a member of workspace")

end Attachments

/-- `list_attachments`. -/
def list_attachments (s : Store) (actor : Nat) (task_id : Nat) :
    Except Failure (List Attachment) :=
  match s.findTask task_id with
  | none => .error (.notFound "Task not found")
  | some t =>
    match Attachments._ensure_task_access s actor t with
    | .error e => .error e
    | .ok _ => .ok (s.attachments.filter (fun a => a.task_id == some task_id))

/-- `create_attachment` on path task `task_id`: membership is authorized
against that task's workspace only; the stored row points at the task exactly
when the payload's `comment_id` is null, and at the payload's comment
otherwise — the handler never resolves the comment or compares its task. -/
def create_attachment (s : Store) (actor now : Nat) (task_id : Nat)
    (payload : AttachmentCreate) : OpResult Attachment :=
  match s.findTask task_id with
  | none => .error (.notFound "Task not found")
  | some t =>
    match Attachments._ensure_task_access s actor t with
    | .error e => .error e
    | .ok _ =>
      let a : Attachment :=
        { id := s.next_id, filename := payload.filename, url := payload.url,
          task_id := if payload.comment_id == none then some task_id else none,
          comment_id := payload.comment_id,
          uploader_id := some actor, created_at := now }
      .ok (a, { s with attachments := s.attachments ++ [a], next_id := s.next_id + 1 })

/-- `delete_attachment`: resolve the parent task (directly, or through the
attachment's comment), then `_ensure_task_access` — a membership check only;
the uploader is never consulted. -/
def delete_attachment (s : Store) (actor : Nat) (attachment_id : Nat) :
    OpResult Unit :=
  match s.findAttachment attachment_id with
  | none => .error (.notFound "Attachment not found")
  | some a =>
    let parentTask : Except Failure Task :=
      match a.task_id with
      | some tid =>
        match s.findTask tid with
        | some t => .ok t
        | none =>
          -- `attachment.task` is None for a dangling id; fall through to the comment
          match a.comment_id with
          | some cid =>
            match s.findComment cid with
            | some c =>
              match s.findTask c.task_id with
              | some t => .ok t
              | none => .error (.internalError "comment.task is None")
            | none => .error (.badRequest "Attachment is not linked to a task or comment")
          | none => .error (.badRequest "Attachment is not linked to a task or comment")
      | none =>
        match a.comment_id with
        | some cid =>
          match s.findComment cid with
          | some c =>
            match s.findTask c.task_id with
            | some t => .ok t
            | none => .error (.internalError "comment.task is None")
          | none => .error (.badRequest "Attachment is not linked to a task or comment")
        | none => .error (.badRequest "Attachment is not linked to a task or comment")
    match parentTask with
    | .error e => .error e
    | .ok t =>
      match Attachments._ensure_task_access s actor t with
      | .error e => .error e
      | .ok _ =>
        .ok ((), { s with attachments := s.attachments.filter (fun x => x.id != attachment_id) })

/-! ## Custom-field operations (`app/routers/custom_fields.py`) -/

namespace CustomFields

/-- `_ensure_project_access`: 404 on project, 403 on membership. -/
def _ensure_project_access (s : Store) (project_id user_id : Nat) :
    Except Failure Project :=
  match s.findProject project_id with
  | none => .error (.notFound "Project not found")
  | some project =>
    if s.isMember user_id project.workspace_id then .ok project
    else .error (.forbidden "Not a member of workspace")

/-- `_ensure_task_access` of `routers/custom_fields.py`. -/
def _ensure_task_access (s : Store) (task_id user_id : Nat) :
    Except Failure Task :=
  match s.findTask task_id with
  | none => .error (.notFound "Task not found")
  | some t =>
    match _ensure_project_access s t.project_id user_id with
    | .error e => .error e
    | .ok _ => .ok t

end CustomFields

/-- `list_custom_fields`. -/
def list_custom_fields (s : Store) (actor : Nat) (project_id : Nat) :
    Except Failure (List CustomField) :=
  match CustomFields._ensure_project_access s project_id actor with
  | .error e => .error e
  | .ok _ => .ok (s.custom_fields.filter (fun f => f.project_id == project_id))

/-- `create_custom_field`: project access, a path/payload consistency check,
then the field plus its option rows (`position or idx`: a zero option
position falls back to the enumeration index, Python falsiness). -/
def create_custom_field (s : Store) (actor now : Nat) (project_id : Nat)
    (payload : CustomFieldCreate) : OpResult CustomField :=
  match CustomFields._ensure_project_access s project_id actor with
  | .error e => .error e
  | .ok _ =>
    if payload.project_id != project_id then
      .error (.badRequest "Project mismatch")
    else
      let f : CustomField :=
        { id := s.next_id, name := payload.name, type := payload.type,
          project_id := project_id, created_at := now }
      let opts := (payload.options.getD []).enum.map (fun (idx, o) =>
        ({ id := s.next_id + 1 + idx, custom_field_id := f.id, value := o.value,
           color := o.color,
           position := match o.position with
             | some p => if p == 0 then idx else p
             | none => idx } : CustomFieldOption))
      .ok (f, { s with
        custom_fields := s.custom_fields ++ [f],
        custom_field_options := s.custom_field_options ++ opts,
        next_id := s.next_id + 1 + opts.length })

/-- `delete_custom_field`: project access (membership) only — the router has
no ownership notion for custom fields; option rows cascade, value rows go
with the field (FK CASCADE on `custom_field_id`). -/
def delete_custom_field (s : Store) (actor : Nat) (field_id : Nat) : OpResult Unit :=
  match s.findCustomField field_id with
  | none => .error (.notFound "Custom field not found")
  | some f =>
    match CustomFields._ensure_project_access s f.project_id actor with
    | .error e => .error e
    | .ok _ =>
      .ok ((), { s with
        custom_fields := s.custom_fields.filter (fun x => x.id != field_id),
        custom_field_options := s.custom_field_options.filter (fun o => o.custom_field_id != field_id),
        custom_field_values := s.custom_field_values.filter (fun v => v.custom_field_id != field_id) })

/-- The table-driven slot mapping of `set_task_custom_field`
(`expected_attr`): the payload attribute that must be populated for the
field's declared type. -/
def providedValueIsSome (ft : FieldType) (p : CustomFieldValuePayload) : Bool :=
  match ft with
  | .text => p.value_text.isSome
  | .number => p.value_number.isSome
  | .date => p.value_date.isSome
  | .dropdown => p.value_text.isSome
  | .boolean => p.value_boolean.isSome

/-- The dropdown option check of `set_task_custom_field`: for a `dropdown`
field the provided `value_text` must be among the field's declared option
values; other types pass. -/
def dropdownCheck (s : Store) (field_id : Nat) (ft : FieldType)
    (payload : CustomFieldValuePayload) : Bool :=
  match ft, payload.value_text with
  | .dropdown, some v => ((s.optionsOf field_id).map (fun o => o.value)).contains v
  | .dropdown, none => false
  | _, _ => true

/-- `set_task_custom_field`: task access, field 404, the
`custom_field.project_id == task.project_id` invariant (400), the typed-slot
check (400), the dropdown option check (400), then an upsert of the value row
that copies ALL FOUR payload slots verbatim
(`value.value_text = payload.value_text; …; value.value_boolean = payload.value_boolean`). -/
def set_task_custom_field (s : Store) (actor now : Nat) (task_id field_id : Nat)
    (payload : CustomFieldValuePayload) : OpResult CustomField :=
  match CustomFields._ensure_task_access s task_id actor with
  | .error e => .error e
  | .ok t =>
    match s.findCustomField field_id with
    | none => .error (.notFound "Custom field not found")
    | some f =>
      if f.project_id != t.project_id then
        .error (.badRequest "Custom field does not belong to task project")
      else if !providedValueIsSome f.type payload then
        .error (.badRequest "Value does not match field type")
      else
        if !dropdownCheck s field_id f.type payload then
          .error (.badRequest "Dropdown value not recognised")
        else
          match s.findValueRow task_id field_id with
          | some v =>
            let v' : TaskCustomFieldValue := { v with
              value_text := payload.value_text, value_number := payload.value_number,
              value_date := payload.value_date, value_boolean := payload.value_boolean }
            .ok (f, { s with
              custom_field_values := s.custom_field_values.map (fun x =>
                if x.id == v.id then v' else x) })
          | none =>
            let v : TaskCustomFieldValue :=
              { id := s.next_id, task_id := task_id, custom_field_id := field_id,
                value_text := payload.value_text, value_number := payload.value_number,
                value_date := payload.value_date, value_boolean := payload.value_boolean,
                created_at := now }
            .ok (f, { s with
              custom_field_values := s.custom_field_values ++ [v],
              next_id := s.next_id + 1 })

/-- `clear_task_custom_field`: clearing an absent value row is a 404. -/
def clear_task_custom_field (s : Store) (actor : Nat) (task_id field_id : Nat) :
    OpResult Unit :=
  match CustomFields._ensure_task_access s task_id actor with
  | .error e => .error e
  | .ok t =>
    match s.findCustomField field_id with
    | none => .error (.notFound "Custom field not found")
    | some f =>
      if f.project_id != t.project_id then
        .error (.badRequest "Custom field does not belong to task project")
      else
        match s.findValueRow task_id field_id with
        | none => .error (.notFound "Value not found")
        | some v =>
          .ok ((), { s with
            custom_field_values := s.custom_field_values.filter (fun x => x.id != v.id) })

/-! ## The operation surface

One constructor per workspace-scoped create/read/update/delete/list
operation of the routers (everything except auth/user endpoints and
`list_workspaces`, which is not scoped under a single workspace). -/

inductive Op
  | readWorkspaceOp (workspace_id : Nat)
  | updateWorkspaceOp (workspace_id : Nat) (p : WorkspaceUpdate)
  | deleteWorkspaceOp (workspace_id : Nat)
  | listProjectsOp (workspace_id : Nat)
  | createProjectOp (p : ProjectCreate)
  | readProjectOp (project_id : Nat)
  | updateProjectOp (project_id : Nat) (p : ProjectUpdate)
  | deleteProjectOp (project_id : Nat)
  | listSectionsOp (project_id : Nat)
  | createSectionOp (p : SectionCreate)
  | updateSectionOp (section_id : Nat) (p : SectionUpdate)
  | deleteSectionOp (section_id : Nat)
  | listTasksOp (q : TaskListQuery)
  | createTaskOp (p : TaskCreate)
  | readTaskOp (task_id : Nat)
  | updateTaskOp (task_id : Nat) (p : TaskUpdate)
  | deleteTaskOp (task_id : Nat)
  | listCommentsOp (task_id : Nat)
  | createCommentOp (task_id : Nat) (content : String)
  | updateCommentOp (comment_id : Nat) (p : CommentUpdate)
  | deleteCommentOp (comment_id : Nat)
  | listTagsOp (workspace_id : Nat)
  | createTagOp (p : TagCreate)
  | updateTagOp (tag_id : Nat) (p : TagUpdate)
  | deleteTagOp (tag_id : Nat)
  | assignTagOp (task_id tag_id : Nat)
  | unassignTagOp (task_id tag_id : Nat)
  | listAttachmentsOp (task_id : Nat)
  | createAttachmentOp (task_id : Nat) (p : AttachmentCreate)
  | deleteAttachmentOp (attachment_id : Nat)
  | listCustomFieldsOp (project_id : Nat)
  | createCustomFieldOp (project_id : Nat) (p : CustomFieldCreate)
  | deleteCustomFieldOp (field_id : Nat)
  | setTaskCustomFieldOp (task_id field_id : Nat) (p : CustomFieldValuePayload)
  | clearTaskCustomFieldOp (task_id field_id : Nat)
  | listTeamsOp (workspace_id : Nat)
  | createTeamOp (p : TeamCreate)
  | addTeamMemberOp (team_id : Nat) (p : TeamMemberUpdate)
  | removeTeamMemberOp (team_id user_id : Nat)
  deriving Repr, DecidableEq

/-- `resolveWorkspace` (§4.1 of the spec): the workspace the operation's
membership/ownership authorization is scoped to, obtained by walking the
ownership chain of the target entity (Task→Project→Workspace,
Comment→Task→Project→Workspace, …) on the current store. -/
def opWorkspace (op : Op) (s : Store) : Option Nat :=
  let ofTask (tid : Nat) : Option Nat :=
    (s.findTask tid).bind (fun t => (s.findProject t.project_id).map (fun p => p.workspace_id))
  match op with
  | .readWorkspaceOp wid => (s.findWorkspace wid).map (fun w => w.id)
  | .updateWorkspaceOp wid _ => (s.findWorkspace wid).map (fun w => w.id)
  | .deleteWorkspaceOp wid => (s.findWorkspace wid).map (fun w => w.id)
  | .listProjectsOp wid => some wid
  | .createProjectOp p => some p.workspace_id
  | .readProjectOp pid => (s.findProject pid).map (fun p => p.workspace_id)
  | .updateProjectOp pid _ => (s.findProject pid).map (fun p => p.workspace_id)
  | .deleteProjectOp pid => (s.findProject pid).map (fun p => p.workspace_id)
  | .listSectionsOp pid => (s.findProject pid).map (fun p => p.workspace_id)
  | .createSectionOp p => (s.findProject p.project_id).map (fun p => p.workspace_id)
  | .updateSectionOp sid _ =>
    (s.findSection sid).bind (fun x => (s.findProject x.project_id).map (fun p => p.workspace_id))
  | .deleteSectionOp sid =>
    (s.findSection sid).bind (fun x => (s.findProject x.project_id).map (fun p => p.workspace_id))
  | .listTasksOp q => some q.workspace_id
  | .createTaskOp p => (s.findProject p.project_id).map (fun p => p.workspace_id)
  | .readTaskOp tid => ofTask tid
  | .updateTaskOp tid _ => ofTask tid
  | .deleteTaskOp tid => ofTask tid
  | .listCommentsOp tid => ofTask tid
  | .createCommentOp tid _ => ofTask tid
  | .updateCommentOp cid _ => (s.findComment cid).bind (fun c => ofTask c.task_id)
  | .deleteCommentOp cid => (s.findComment cid).bind (fun c => ofTask c.task_id)
  | .listTagsOp wid => some wid
  | .createTagOp p => some p.workspace_id
  | .updateTagOp gid _ => (s.findTag gid).map (fun g => g.workspace_id)
  | .deleteTagOp gid => (s.findTag gid).map (fun g => g.workspace_id)
  | .assignTagOp _ gid => (s.findTag gid).map (fun g => g.workspace_id)
  | .unassignTagOp _ gid => (s.findTag gid).map (fun g => g.workspace_id)
  | .listAttachmentsOp tid => ofTask tid
  | .createAttachmentOp tid _ => ofTask tid
  | .deleteAttachmentOp aid =>
    (s.findAttachment aid).bind (fun a =>
      match a.task_id with
      | some tid =>
        match s.findTask tid with
        | some t => (s.findProject t.project_id).map (fun p => p.workspace_id)
        | none => (a.comment_id.bind s.findComment).bind (fun c => ofTask c.task_id)
      | none => (a.comment_id.bind s.findComment).bind (fun c => ofTask c.task_id))
  | .listCustomFieldsOp pid => (s.findProject pid).map (fun p => p.workspace_id)
  | .createCustomFieldOp pid _ => (s.findProject pid).map (fun p => p.workspace_id)
  | .deleteCustomFieldOp fid =>
    (s.findCustomField fid).bind (fun f => (s.findProject f.project_id).map (fun p => p.workspace_id))
  | .setTaskCustomFieldOp tid _ _ => ofTask tid
  | .clearTaskCustomFieldOp tid _ => ofTask tid
  | .listTeamsOp wid => some wid
  | .createTeamOp p => some p.workspace_id
  | .addTeamMemberOp teamId _ => (s.findTeam teamId).map (fun t => t.workspace_id)
  | .removeTeamMemberOp teamId _ => (s.findTeam teamId).map (fun t => t.workspace_id)

/-- Run an operation, discarding the response body and keeping only the
failure or the post-transaction store. -/
def applyOp (op : Op) (s : Store) (actor now : Nat) : Except Failure Store :=
  match op with
  | .readWorkspaceOp wid => (read_workspace s actor wid).map (fun _ => s)
  | .updateWorkspaceOp wid p => (update_workspace s actor now wid p).map (fun r => r.2)
  | .deleteWorkspaceOp wid => (delete_workspace s actor wid).map (fun r => r.2)
  | .listProjectsOp wid => (list_projects s actor wid).map (fun _ => s)
  | .createProjectOp p => (create_project s actor now p).map (fun r => r.2)
  | .readProjectOp pid => (read_project s actor pid).map (fun _ => s)
  | .updateProjectOp pid p => (update_project s actor now pid p).map (fun r => r.2)
  | .deleteProjectOp pid => (delete_project s actor pid).map (fun r => r.2)
  | .listSectionsOp pid => (list_sections s actor pid).map (fun _ => s)
  | .createSectionOp p => (create_section s actor now p).map (fun r => r.2)
  | .updateSectionOp sid p => (update_section s actor sid p).map (fun r => r.2)
  | .deleteSectionOp sid => (delete_section s actor sid).map (fun r => r.2)
  | .listTasksOp q => (list_tasks s actor q).map (fun _ => s)
  | .createTaskOp p => (create_task s actor now p).map (fun r => r.2)
  | .readTaskOp tid => (read_task s actor tid).map (fun _ => s)
  | .updateTaskOp tid p => (update_task s actor now tid p).map (fun r => r.2)
  | .deleteTaskOp tid => (delete_task s actor tid).map (fun r => r.2)
  | .listCommentsOp tid => (list_task_comments s actor tid).map (fun _ => s)
  | .createCommentOp tid body => (create_task_comment s actor now tid body).map (fun r => r.2)
  | .updateCommentOp cid p => (update_comment s actor now cid p).map (fun r => r.2)
  | .deleteCommentOp cid => (delete_comment s actor cid).map (fun r => r.2)
  | .listTagsOp wid => (list_tags s actor wid).map (fun _ => s)
  | .createTagOp p => (create_tag s actor now p).map (fun r => r.2)
  | .updateTagOp gid p => (update_tag s actor gid p).map (fun r => r.2)
  | .deleteTagOp gid => (delete_tag s actor gid).map (fun r => r.2)
  | .assignTagOp tid gid => (assign_tag_to_task s actor tid gid).map (fun r => r.2)
  | .unassignTagOp tid gid => (unassign_tag_from_task s actor tid gid).map (fun r => r.2)
  | .listAttachmentsOp tid => (list_attachments s actor tid).map (fun _ => s)
  | .createAttachmentOp tid p => (create_attachment s actor now tid p).map (fun r => r.2)
  | .deleteAttachmentOp aid => (delete_attachment s actor aid).map (fun r => r.2)
  | .listCustomFieldsOp pid => (list_custom_fields s actor pid).map (fun _ => s)
  | .createCustomFieldOp pid p => (create_custom_field s actor now pid p).map (fun r => r.2)
  | .deleteCustomFieldOp fid => (delete_custom_field s actor fid).map (fun r => r.2)
  | .setTaskCustomFieldOp tid fid p => (set_task_custom_field s actor now tid fid p).map (fun r => r.2)
  | .clearTaskCustomFieldOp tid fid => (clear_task_custom_field s actor tid fid).map (fun r => r.2)
  | .listTeamsOp wid => (list_teams s actor wid).map (fun _ => s)
  | .createTeamOp p => (create_team s actor now p).map (fun r => r.2)
  | .addTeamMemberOp teamId p => (add_team_member s actor teamId p).map (fun r => r.2)
  | .removeTeamMemberOp teamId uid => (remove_team_member s actor teamId uid).map (fun r => r.2)

/-- The persisted state after a call: on failure the transaction aborts and
the store is what it was. -/
def execOp (op : Op) (s : Store) (actor now : Nat) : Store :=
  match applyOp op s actor now with
  | .ok s' => s'
  | .error _ => s

/-- Reachable-state invariant justifying the membership claim on the
owner-gated paths: every workspace owner and every project owner holds a
membership row for the respective workspace. `create_workspace` inserts the
owner's membership atomically, `create_project` makes the (already
member-checked) creator the owner, no endpoint ever removes a membership
without removing the workspace, and no update payload can change an owner. -/
def OwnersAreMembers (s : Store) : Prop :=
  (∀ w ∈ s.workspaces, s.isMember w.owner_id w.id = true) ∧
  (∀ p ∈ s.projects, ∀ uid, p.owner_id = some uid → s.isMember uid p.workspace_id = true)

/-! ## A small concrete store used to evaluate the theorems

Users 1 and 2 are members of workspace 10 (owner 1); user 3 has no
memberships. Workspace 11 (owner 1) holds project 21 and tag 51 for
cross-workspace scenarios. Attachment 70 on task 40 was uploaded by user 2. -/

def demoStore : Store where
  users :=
    [ { id := 1, email := "a@x", name := "A", password_hash := "h", created_at := 0, updated_at := 0 },
      { id := 2, email := "b@x", name := "B", password_hash := "h", created_at := 0, updated_at := 0 },
      { id := 3, email := "c@x", name := "C", password_hash := "h", created_at := 0, updated_at := 0 } ]
  workspaces :=
    [ { id := 10, name := "W", owner_id := 1, created_at := 0, updated_at := 0 },
      { id := 11, name := "V", owner_id := 1, created_at := 0, updated_at := 0 } ]
  memberships :=
    [ { user_id := 1, workspace_id := 10 }, { user_id := 2, workspace_id := 10 },
      { user_id := 1, workspace_id := 11 } ]
  teams := [ { id := 100, name := "T", workspace_id := 10, created_at := 0 } ]
  user_teams := [ { user_id := 1, team_id := 100 } ]
  projects :=
    [ { id := 20, name := "P", description := none, workspace_id := 10, team_id := none,
        owner_id := some 1, is_public := true, created_at := 0, updated_at := 0 },
      { id := 21, name := "Q", description := none, workspace_id := 11, team_id := none,
        owner_id := some 1, is_public := true, created_at := 0, updated_at := 0 } ]
  sections := [ { id := 30, name := "S", project_id := 20, position := 0, created_at := 0 } ]
  tasks :=
    [ { id := 40, name := "t40", description := none, project_id := 20, section_id := some 30,
        parent_task_id := none, assignee_id := some 1, creator_id := 1, due_date := none,
        completed_at := none, position := 0, created_at := 5, updated_at := 5 },
      { id := 41, name := "t41", description := none, project_id := 20, section_id := some 30,
        parent_task_id := none, assignee_id := none, creator_id := 1, due_date := none,
        completed_at := some 7, position := 0, created_at := 6, updated_at := 7 } ]
  comments :=
    [ { id := 60, content := "hi", task_id := 40, author_id := 1, created_at := 0, updated_at := 0 } ]
  attachments :=
    [ { id := 70, filename := "f", url := "http://u", task_id := some 40, comment_id := none,
        uploader_id := some 2, created_at := 0 } ]
  tags :=
    [ { id := 50, name := "urgent", color := none, workspace_id := 10, created_at := 0 },
      { id := 51, name := "other", color := none, workspace_id := 11, created_at := 0 } ]
  task_tags := [ { task_id := 40, tag_id := 50 } ]
  custom_fields :=
    [ { id := 80, name := "txt", type := .text, project_id := 20, created_at := 0 },
      { id := 81, name := "dd", type := .dropdown, project_id := 20, created_at := 0 },
      { id := 82, name := "num", type := .number, project_id := 20, created_at := 0 } ]
  custom_field_options :=
    [ { id := 90, custom_field_id := 81, value := "red", color := none, position := 0 },
      { id := 91, custom_field_id := 81, value := "blue", color := none, position := 1 } ]
  custom_field_values := []
  task_followers := []
  next_id := 200

/-! ## Helper lemmas -/

theorem assert_ws_of_member {s : Store} {u w : Nat} (h : s.isMember u w = true) :
    _assert_workspace_access s u w = .ok () := by
  simp [_assert_workspace_access, h]

theorem assert_ws_of_nonmember {s : Store} {u w : Nat} (h : s.isMember u w = false) :
    _assert_workspace_access s u w = .error (.forbidden "Not a member of workspace") := by
  simp [_assert_workspace_access, h]

theorem find?_id_eq {l : List Task} {tid : Nat} {t : Task}
    (h : l.find? (fun x => x.id == tid) = some t) : t.id = tid := by
  have := List.find?_some h
  simpa using this

/-- Updating the row found by a primary-key lookup makes the subsequent
lookup return the updated row. -/
theorem find?_map_replace {l : List Task} {tid : Nat} {t t' : Task}
    (h : l.find? (fun x => x.id == tid) = some t) (hid : t'.id = tid) :
    (l.map (fun x => if x.id == tid then t' else x)).find? (fun x => x.id == tid)
      = some t' := by
  induction l with
  | nil => simp at h
  | cons a l ih =>
    by_cases ha : a.id = tid
    · have hhead : (fun x => if x.id == tid then t' else x) a = t' := by simp [ha]
      simp only [List.map_cons, hhead]
      exact List.find?_cons_of_pos _ (by simp [hid])
    · have hhead : (fun x => if x.id == tid then t' else x) a = a := by simp [ha]
      rw [List.find?_cons_of_neg _ (by simp [ha])] at h
      simp only [List.map_cons, hhead]
      rw [List.find?_cons_of_neg _ (by simp [ha])]
      exact ih h

/-- `applyTaskUpdate` written as a single record expression. -/
theorem applyTaskUpdate_eq (t : Task) (u : TaskUpdate) (now : Nat) :
    applyTaskUpdate t u now =
      { t with
        name := u.name.getD t.name,
        description := match u.description with | some d => some d | none => t.description,
        section_id := match u.section_id with | some v => some v | none => t.section_id,
        assignee_id := match u.assignee_id with | some v => some v | none => t.assignee_id,
        due_date := match u.due_date with | some v => some v | none => t.due_date,
        position := u.position.getD t.position,
        completed_at :=
          match u.completed with
          | some b => if b then some now else none
          | none => t.completed_at,
        updated_at := if u.writesSomething then now else t.updated_at } := by
  unfold applyTaskUpdate
  cases hc : u.completed with
  | none => by_cases hw : u.writesSomething <;> simp [hc, hw]
  | some b => cases b <;> by_cases hw : u.writesSomething <;> simp [hc, hw]

/-! ## C3 — the `completed` flag drives `completed_at` -/

/-- C3: creating a task with `completed=true` stamps `completed_at := now`
(non-null); creating it without `completed=true` leaves it `NULL`; updating
with `completed=true` sets `completed_at` to the current time, with
`completed=false` clears it to null, and an update payload omitting
`completed` leaves the stored `completed_at` exactly as it was before the
call (the updated row is the one a subsequent lookup returns). -/
theorem completed_flag_drives_completed_at :
    (∀ (s : Store) (actor now : Nat) (payload : TaskCreate) (t : Task) (s' : Store),
      create_task s actor now payload = .ok (t, s') →
      (payload.completed = some true → t.completed_at = some now) ∧
      (payload.completed ≠ some true → t.completed_at = none)) ∧
    (∀ (s : Store) (actor now tid : Nat) (payload : TaskUpdate) (t₀ t : Task) (s' : Store),
      s.findTask tid = some t₀ →
      update_task s actor now tid payload = .ok (t, s') →
      ((payload.completed = some true → t.completed_at = some now) ∧
       (payload.completed = some false → t.completed_at = none) ∧
       (payload.completed = none → t.completed_at = t₀.completed_at)) ∧
      s'.findTask tid = some t) := by
  constructor
  · intro s actor now payload t s' hok
    unfold create_task at hok
    split at hok
    · exact absurd hok (by simp)
    · split at hok
      · exact absurd hok (by simp)
      · rw [Except.ok.injEq, Prod.mk.injEq] at hok
        obtain ⟨ht, _⟩ := hok
        constructor
        · intro hc; rw [← ht]; simp [hc]
        · intro hc; rw [← ht]; simp only
          rw [if_neg (by simpa using hc)]
  · intro s actor now tid payload t₀ t s' h₀ hok
    unfold update_task at hok
    rw [h₀] at hok
    split at hok
    next heq => exact absurd heq (by simp)
    next t₁ heq =>
      rw [Option.some.injEq] at heq
      subst heq
      split at hok
      · exact absurd hok (by simp)
      split at hok
      · exact absurd hok (by simp)
      rw [Except.ok.injEq, Prod.mk.injEq] at hok
      obtain ⟨ht, hs⟩ := hok
      have h₀' : s.tasks.find? (fun x => x.id == tid) = some t₀ := h₀
      have h₀id : t₀.id = tid := find?_id_eq h₀'
      have htid : t.id = tid := by rw [← ht, applyTaskUpdate_eq]; exact h₀id
      refine ⟨⟨?_, ?_, ?_⟩, ?_⟩
      · intro hc; rw [← ht, applyTaskUpdate_eq]; simp [hc]
      · intro hc; rw [← ht, applyTaskUpdate_eq]; simp [hc]
      · intro hc; rw [← ht, applyTaskUpdate_eq]; simp [hc]
      · rw [← hs]
        show (s.tasks.map _).find? _ = some t
        rw [ht]
        exact find?_map_replace h₀' htid

/-- Concrete payload, result row and result store of the C3 create call. -/
def c3CreatePayload : TaskCreate := { name := "n", project_id := 20, completed := some true }

def c3CreatedTask : Task :=
  { id := 200, name := "n", description := none, project_id := 20, section_id := none,
    parent_task_id := none, assignee_id := none, creator_id := 1, due_date := none,
    completed_at := some 9, position := 0, created_at := 9, updated_at := 9 }

def c3CreateStore : Store :=
  { demoStore with tasks := demoStore.tasks ++ [c3CreatedTask], next_id := 201 }

/-- Task 41 of the demo store, its row after the C3 update call, and the
resulting store. -/
def c3Task41 : Task :=
  { id := 41, name := "t41", description := none, project_id := 20, section_id := some 30,
    parent_task_id := none, assignee_id := none, creator_id := 1, due_date := none,
    completed_at := some 7, position := 0, created_at := 6, updated_at := 7 }

def c3UpdatedTask : Task := { c3Task41 with completed_at := none, updated_at := 9 }

def c3UpdateStore : Store :=
  { demoStore with tasks := demoStore.tasks.map (fun x => if x.id == 41 then c3UpdatedTask else x) }

/-- Witness for C3: the hypotheses hold at concrete inputs on the demo store
and the theorem yields the stamped/cleared `completed_at`. -/
theorem completed_flag_drives_completed_at_witness :
    c3CreatedTask.completed_at = some 9 ∧ c3UpdatedTask.completed_at = none :=
  ⟨(completed_flag_drives_completed_at.1 demoStore 1 9 c3CreatePayload c3CreatedTask
      c3CreateStore (by decide)).1 rfl,
   ((completed_flag_drives_completed_at.2 demoStore 1 9 41 { completed := some false }
      c3Task41 c3UpdatedTask c3UpdateStore (by decide) (by decide)).1).2.1 rfl⟩

/-! ## C9 — attachments target exactly one of task / comment -/

/-- C9: a successful attachment creation on path task `tid` stores
`task_id = tid, comment_id = NULL` when the payload's `comment_id` is null
and `task_id = NULL, comment_id = C` when it is `C`; exactly one of the two
references is set. Moreover membership is authorized against the path task's
workspace only: given the task, its project and the actor's membership there,
the call succeeds for EVERY payload — in particular for a `comment_id`
belonging to a comment of a different task, which is never resolved or
compared. -/
theorem attachment_targets_exactly_one :
    (∀ (s : Store) (actor now tid : Nat) (payload : AttachmentCreate)
        (a : Attachment) (s' : Store),
      create_attachment s actor now tid payload = .ok (a, s') →
      (payload.comment_id = none → a.task_id = some tid ∧ a.comment_id = none) ∧
      (∀ cid, payload.comment_id = some cid → a.task_id = none ∧ a.comment_id = some cid) ∧
      a.task_id.isSome = a.comment_id.isNone) ∧
    (∀ (s : Store) (actor now tid : Nat) (payload : AttachmentCreate) (t : Task) (p : Project),
      s.findTask tid = some t →
      s.findProject t.project_id = some p →
      s.isMember actor p.workspace_id = true →
      (create_attachment s actor now tid payload).isOk = true) := by
  constructor
  · intro s actor now tid payload a s' hok
    unfold create_attachment at hok
    split at hok
    · exact absurd hok (by simp)
    split at hok
    · exact absurd hok (by simp)
    rw [Except.ok.injEq, Prod.mk.injEq] at hok
    obtain ⟨ha, _⟩ := hok
    refine ⟨?_, ?_, ?_⟩
    · intro hc; rw [← ha]; simp [hc]
    · intro cid hc; rw [← ha]; simp [hc]
    · rw [← ha]
      cases hc : payload.comment_id <;> simp [hc]
  · intro s actor now tid payload t p ht hp hm
    unfold create_attachment
    rw [ht]
    simp only [Attachments._ensure_task_access, hp, hm]
    rfl

/-- Witness for C9: a concrete creation with `comment_id = 60` on the demo
store, and the theorem's conclusions evaluated there. -/
theorem attachment_targets_exactly_one_witness :
    ((create_attachment demoStore 1 9 40
        { filename := "g", url := "http://v", comment_id := some 60 }).isOk = true)
    ∧ ({ id := 200, filename := "g", url := "http://v", task_id := none,
         comment_id := some 60, uploader_id := some 1, created_at := 9 } : Attachment).task_id = none :=
  ⟨attachment_targets_exactly_one.2 demoStore 1 9 40
      { filename := "g", url := "http://v", comment_id := some 60 }
      { id := 40, name := "t40", description := none, project_id := 20, section_id := some 30,
        parent_task_id := none, assignee_id := some 1, creator_id := 1, due_date := none,
        completed_at := none, position := 0, created_at := 5, updated_at := 5 }
      { id := 20, name := "P", description := none, workspace_id := 10, team_id := none,
        owner_id := some 1, is_public := true, created_at := 0, updated_at := 0 }
      (by decide) (by decide) (by decide),
   (attachment_targets_exactly_one.1 demoStore 1 9 40
      { filename := "g", url := "http://v", comment_id := some 60 }
      { id := 200, filename := "g", url := "http://v", task_id := none,
        comment_id := some 60, uploader_id := some 1, created_at := 9 }
      { demoStore with
        attachments := demoStore.attachments ++
          [{ id := 200, filename := "g", url := "http://v", task_id := none,
             comment_id := some 60, uploader_id := some 1, created_at := 9 }],
        next_id := 201 }
      (by decide)).2.1 60 rfl |>.1⟩

/-! ## C5 — section delete nullifies, project delete cascades -/

/-- The seed of the subtask closure is contained in it. -/
theorem mem_subtaskClosure_of_seed (tasks : List Task) {x : Nat} :
    ∀ (fuel : Nat) (dead : List Nat), x ∈ dead → x ∈ subtaskClosure tasks dead fuel := by
  intro fuel
  induction fuel with
  | zero => intro dead h; simpa [subtaskClosure] using h
  | succ n ih =>
    intro dead h
    rw [subtaskClosure]
    split
    · exact h
    · exact ih _ (List.mem_append_left _ h)

/-- C5: deleting a section keeps every task of the store persisted — a task
that pointed at the section survives with `section_id` nulled, any other task
survives unchanged — whereas deleting a project removes every task of that
project from the store. -/
theorem section_delete_keeps_tasks_project_delete_removes :
    (∀ (s : Store) (actor sid : Nat) (s' : Store),
      delete_section s actor sid = .ok ((), s') →
      s'.tasks.length = s.tasks.length ∧
      (∀ t ∈ s.tasks, t.section_id = some sid →
        ({ t with section_id := none } : Task) ∈ s'.tasks) ∧
      (∀ t ∈ s.tasks, t.section_id ≠ some sid → t ∈ s'.tasks)) ∧
    (∀ (s : Store) (actor pid : Nat) (s' : Store),
      delete_project s actor pid = .ok ((), s') →
      ∀ t ∈ s'.tasks, t.project_id ≠ pid) := by
  constructor
  · intro s actor sid s' hok
    unfold delete_section at hok
    split at hok
    · exact absurd hok (by simp)
    split at hok
    · exact absurd hok (by simp)
    split at hok
    · exact absurd hok (by simp)
    rw [Except.ok.injEq, Prod.mk.injEq] at hok
    obtain ⟨_, hs⟩ := hok
    subst hs
    refine ⟨by simp, ?_, ?_⟩
    · intro t htm hsec
      simp only
      refine List.mem_map.2 ⟨t, htm, ?_⟩
      simp [hsec]
    · intro t htm hsec
      simp only
      refine List.mem_map.2 ⟨t, htm, ?_⟩
      have : (t.section_id == some sid) = false := by simpa using hsec
      simp [this]
  · intro s actor pid s' hok
    unfold delete_project at hok
    split at hok
    · exact absurd hok (by simp)
    split at hok
    · rw [Except.ok.injEq, Prod.mk.injEq] at hok
      obtain ⟨_, hs⟩ := hok
      subst hs
      intro t htm hpid
      simp only [projectCascadeStore, removeTasksCascade] at htm
      rw [List.mem_filter] at htm
      obtain ⟨htm, hkeep⟩ := htm
      have hseed : t.id ∈ (s.tasks.filter (fun x => x.project_id == pid)).map (fun x => x.id) :=
        List.mem_map.2 ⟨t, List.mem_filter.2 ⟨htm, by simp [hpid]⟩, rfl⟩
      have hdead := mem_subtaskClosure_of_seed s.tasks s.tasks.length _ hseed
      simp [hdead] at hkeep
    · exact absurd hok (by simp)

/-- The store after `delete_section demoStore 1 30`. -/
def sectionDeleteDemo : Store :=
  match delete_section demoStore 1 30 with
  | .ok (_, s) => s
  | .error _ => demoStore

/-- The store after `delete_project demoStore 1 20`. -/
def projectDeleteDemo : Store :=
  match delete_project demoStore 1 20 with
  | .ok (_, s) => s
  | .error _ => demoStore

/-- Witness for C5 on the demo store: deleting section 30 (which holds tasks
40 and 41) and deleting project 20 (which owns them). -/
theorem section_delete_keeps_tasks_project_delete_removes_witness :
    (delete_section demoStore 1 30).isOk = true ∧
    (delete_project demoStore 1 20).isOk = true ∧
    sectionDeleteDemo.tasks.length = 2 ∧
    sectionDeleteDemo.tasks
      = [{ id := 40, name := "t40", description := none, project_id := 20, section_id := none,
           parent_task_id := none, assignee_id := some 1, creator_id := 1, due_date := none,
           completed_at := none, position := 0, created_at := 5, updated_at := 5 },
         { id := 41, name := "t41", description := none, project_id := 20, section_id := none,
           parent_task_id := none, assignee_id := none, creator_id := 1, due_date := none,
           completed_at := some 7, position := 0, created_at := 6, updated_at := 7 }] ∧
    projectDeleteDemo.tasks = [] := by
  refine ⟨by decide, by decide, ?_, by decide, by decide⟩
  have h := (section_delete_keeps_tasks_project_delete_removes.1 demoStore 1 30
    sectionDeleteDemo (by decide)).1
  rw [h]; decide

/-! ## C7 — tag assignment and team-member addition are idempotent -/

/-- C7: when the `(task, tag)` link already exists (and the call is otherwise
authorized and consistent), `assign_tag_to_task` succeeds returning the store
UNCHANGED — `db.merge` on an existing primary key is a silent no-op — so the
association count stays 1; likewise `add_team_member` for an existing
`UserTeam` row succeeds and leaves the store unchanged. -/
theorem assoc_add_idempotent :
    (∀ (s : Store) (actor tid gid : Nat) (t : Task) (g : Tag) (p : Project),
      s.findTask tid = some t →
      s.findTag gid = some g →
      s.isMember actor g.workspace_id = true →
      s.findProject t.project_id = some p →
      p.workspace_id = g.workspace_id →
      (s.task_tags.filter (fun l => l.task_id == tid && l.tag_id == gid)).length = 1 →
      assign_tag_to_task s actor tid gid = .ok ((), s)) ∧
    (∀ (s : Store) (actor teamId : Nat) (payload : TeamMemberUpdate) (team : Team),
      s.findTeam teamId = some team →
      s.isMember actor team.workspace_id = true →
      s.isMember payload.user_id team.workspace_id = true →
      s.isTeamMember payload.user_id teamId = true →
      add_team_member s actor teamId payload = .ok (team, s)) := by
  constructor
  · intro s actor tid gid t g p ht hg hm hp hw hcount
    have hexists : s.task_tags.any (fun l => l.task_id == tid && l.tag_id == gid) = true := by
      have hne : s.task_tags.filter (fun l => l.task_id == tid && l.tag_id == gid) ≠ [] := by
        intro hnil; rw [hnil] at hcount; simp at hcount
      obtain ⟨x, hx⟩ := List.exists_mem_of_ne_nil _ hne
      rw [List.mem_filter] at hx
      rw [List.any_eq_true]
      exact ⟨x, hx.1, hx.2⟩
    unfold assign_tag_to_task
    rw [ht, hg]
    simp [Tags._ensure_workspace_membership, hm, hp, hw, hexists]
  · intro s actor teamId payload team hteam hm₁ hm₂ hmem
    unfold add_team_member
    rw [hteam]
    simp [Teams._ensure_workspace_membership, hm₁, hm₂, hmem]

/-- Witness for C7: repeating the existing `(task 40, tag 50)` assignment and
the existing `(user 1, team 100)` addition on the demo store. -/
theorem assoc_add_idempotent_witness :
    assign_tag_to_task demoStore 1 40 50 = .ok ((), demoStore) ∧
    add_team_member demoStore 1 100 { user_id := 1 }
      = .ok ({ id := 100, name := "T", workspace_id := 10, created_at := 0 }, demoStore) ∧
    (demoStore.task_tags.filter (fun l => l.task_id == 40 && l.tag_id == 50)).length = 1 :=
  ⟨assoc_add_idempotent.1 demoStore 1 40 50
      { id := 40, name := "t40", description := none, project_id := 20, section_id := some 30,
        parent_task_id := none, assignee_id := some 1, creator_id := 1, due_date := none,
        completed_at := none, position := 0, created_at := 5, updated_at := 5 }
      { id := 50, name := "urgent", color := none, workspace_id := 10, created_at := 0 }
      { id := 20, name := "P", description := none, workspace_id := 10, team_id := none,
        owner_id := some 1, is_public := true, created_at := 0, updated_at := 0 }
      (by decide) (by decide) (by decide) (by decide) (by decide) (by decide),
   assoc_add_idempotent.2 demoStore 1 100 { user_id := 1 }
      { id := 100, name := "T", workspace_id := 10, created_at := 0 }
      (by decide) (by decide) (by decide) (by decide),
   by decide⟩

/-! ## C6 — cross-workspace tag assignment: rejected, but with the
BadRequest signal -/

/-- C6 counterexample: on the demo store, tag 51 lives in workspace 11 while
task 40's project lives in workspace 10. The call is rejected and nothing is
persisted, but the failure is `HTTP 400 Bad Request` — exactly the status the
`BadRequest` kind uses (e.g. for a malformed assignee filter), so the signal
is NOT distinguishable from `BadRequest` as the claim requires. -/
theorem tag_mismatch_signal_counterexample :
    assign_tag_to_task demoStore 1 40 51
      = .error (.badRequest "Tag and task must belong to same workspace") ∧
    list_tasks demoStore 1 { workspace_id := 10, assignee := some "boss" }
      = .error (.badRequest "Invalid assignee filter") ∧
    (Failure.badRequest "Tag and task must belong to same workspace").statusCode
      = (Failure.badRequest "Invalid assignee filter").statusCode ∧
    execOp (Op.assignTagOp 40 51) demoStore 1 0 = demoStore := by
  refine ⟨by decide, by decide, rfl, by decide⟩

/-- C6 amended: associating a tag with a task of another workspace is
rejected with HTTP 400 (`Bad Request`) and no association is created; the
signal is distinguishable from NotFound (404) and Forbidden (403) but it is
the same signal the BadRequest kind uses. -/
theorem tag_workspace_mismatch_rejected :
    ∀ (s : Store) (actor tid gid : Nat) (t : Task) (g : Tag) (p : Project),
      s.findTask tid = some t →
      s.findTag gid = some g →
      s.isMember actor g.workspace_id = true →
      s.findProject t.project_id = some p →
      p.workspace_id ≠ g.workspace_id →
      assign_tag_to_task s actor tid gid
        = .error (.badRequest "Tag and task must belong to same workspace") ∧
      (Failure.badRequest "Tag and task must belong to same workspace").statusCode = 400 ∧
      (Failure.notFound "x").statusCode ≠ 400 ∧ (Failure.forbidden "x").statusCode ≠ 400 := by
  intro s actor tid gid t g p ht hg hm hp hw
  refine ⟨?_, rfl, by decide, by decide⟩
  unfold assign_tag_to_task
  rw [ht, hg]
  simp [Tags._ensure_workspace_membership, hm, hp, hw]

/-! ## C4 — custom-field value typing -/

/-- After inserting a fresh row at the end of the value table, the
`(task, field)` lookup returns it. -/
theorem findValueRow_insert {l : List TaskCustomFieldValue} {p : TaskCustomFieldValue → Bool}
    {v : TaskCustomFieldValue} (h : l.find? p = none) (hv : p v = true) :
    (l ++ [v]).find? p = some v := by
  rw [List.find?_append, h]
  simp only [Option.none_or]
  exact List.find?_cons_of_pos _ hv

/-- Updating the row found by the `(task, field)` lookup (replacement by
primary key) makes the subsequent lookup return the updated row. -/
theorem findValueRow_replace {l : List TaskCustomFieldValue} {tid fid : Nat}
    {v0 v' : TaskCustomFieldValue}
    (h : l.find? (fun v => v.task_id == tid && v.custom_field_id == fid) = some v0)
    (ht : v'.task_id = tid) (hf : v'.custom_field_id = fid) :
    (l.map (fun x => if x.id == v0.id then v' else x)).find?
        (fun v => v.task_id == tid && v.custom_field_id == fid) = some v' := by
  induction l with
  | nil => simp at h
  | cons a l ih =>
    by_cases ha : a.id = v0.id
    · have hhead : (fun x => if x.id == v0.id then v' else x) a = v' := by simp [ha]
      simp only [List.map_cons, hhead]
      exact List.find?_cons_of_pos _ (by simp [ht, hf])
    · rw [List.find?_cons] at h
      cases hpa : (a.task_id == tid && a.custom_field_id == fid) with
      | true =>
        exfalso
        simp only [hpa] at h
        rw [Option.some.injEq] at h
        exact ha (by rw [h])
      | false =>
        simp only [hpa] at h
        have hhead : (fun x => if x.id == v0.id then v' else x) a = a := by simp [ha]
        simp only [List.map_cons, hhead]
        rw [List.find?_cons]
        simp only [hpa]
        exact ih h

/-- The store after the C4 counterexample call. -/
def c4CounterStore : Store :=
  match set_task_custom_field demoStore 1 9 40 80
      { value_text := some "a", value_number := some 5 } with
  | .ok (_, s) => s
  | .error _ => demoStore

/-- C4 counterexample: field 80 is declared `text`, yet a payload populating
BOTH `value_text` and `value_number` is accepted and the stored row keeps the
`value_number` slot populated as well — the handler copies all four payload
slots verbatim, so "no other slot is populated" fails. -/
theorem custom_field_single_slot_counterexample :
    set_task_custom_field demoStore 1 9 40 80
        { value_text := some "a", value_number := some 5 }
      = .ok ({ id := 80, name := "txt", type := .text, project_id := 20, created_at := 0 },
             c4CounterStore) ∧
    c4CounterStore.findValueRow 40 80
      = some { id := 200, task_id := 40, custom_field_id := 80, value_text := some "a",
               value_number := some 5, value_date := none, value_boolean := none,
               created_at := 9 } := by
  refine ⟨by decide, by decide⟩

/-- C4 amended: on success the slot matching the field's declared type
(text→value_text, number→value_number, date→value_date, dropdown→value_text,
boolean→value_boolean) is populated, a dropdown value is one of the field's
declared options, and a payload whose matching slot is empty is rejected with
400; however the stored row's four slots equal the payload's four slots
verbatim, so slots other than the matching one may be populated too. -/
theorem custom_field_value_typing :
    (∀ (s : Store) (actor now tid fid : Nat) (payload : CustomFieldValuePayload)
        (f : CustomField) (s' : Store),
      set_task_custom_field s actor now tid fid payload = .ok (f, s') →
      s.findCustomField fid = some f ∧
      providedValueIsSome f.type payload = true ∧
      (f.type = .dropdown → ∃ v, payload.value_text = some v ∧
        v ∈ (s.optionsOf fid).map (fun o => o.value)) ∧
      (∃ row, s'.findValueRow tid fid = some row ∧
        row.value_text = payload.value_text ∧ row.value_number = payload.value_number ∧
        row.value_date = payload.value_date ∧ row.value_boolean = payload.value_boolean)) ∧
    (∀ (s : Store) (actor now tid fid : Nat) (payload : CustomFieldValuePayload)
        (t : Task) (f : CustomField),
      CustomFields._ensure_task_access s tid actor = .ok t →
      s.findCustomField fid = some f →
      f.project_id = t.project_id →
      providedValueIsSome f.type payload = false →
      set_task_custom_field s actor now tid fid payload
        = .error (.badRequest "Value does not match field type")) := by
  constructor
  · intro s actor now tid fid payload f s' hok
    unfold set_task_custom_field at hok
    split at hok
    · exact absurd hok (by simp)
    next t hacc =>
      split at hok
      · exact absurd hok (by simp)
      next f₀ hfind =>
        split at hok
        · exact absurd hok (by simp)
        next hpm =>
          split at hok
          · exact absurd hok (by simp)
          next hprov =>
            split at hok
            · exact absurd hok (by simp)
            next hdd =>
              have hprov' : providedValueIsSome f₀.type payload = true := by
                revert hprov; cases providedValueIsSome f₀.type payload <;> simp
              have hdd' : dropdownCheck s fid f₀.type payload = true := by
                revert hdd; cases dropdownCheck s fid f₀.type payload <;> simp
              have hddConc : f₀.type = .dropdown →
                  ∃ v, payload.value_text = some v ∧
                    v ∈ (s.optionsOf fid).map (fun o => o.value) := by
                intro htype
                rw [htype] at hdd'
                unfold dropdownCheck at hdd'
                cases hvt : payload.value_text with
                | none => rw [hvt] at hdd'; simp at hdd'
                | some v =>
                  rw [hvt] at hdd'
                  refine ⟨v, rfl, ?_⟩
                  simpa using hdd'
              split at hok
              next v0 hrow =>
                simp only [Except.ok.injEq, Prod.mk.injEq] at hok
                obtain ⟨hf, hs⟩ := hok
                subst hf
                refine ⟨hfind, hprov', hddConc, ?_⟩
                have hrow' : s.custom_field_values.find?
                    (fun v => v.task_id == tid && v.custom_field_id == fid) = some v0 := hrow
                have hv0 := List.find?_some hrow'
                rw [Bool.and_eq_true] at hv0
                refine ⟨{ v0 with
                    value_text := payload.value_text,
                    value_number := payload.value_number,
                    value_date := payload.value_date,
                    value_boolean := payload.value_boolean }, ?_, rfl, rfl, rfl, rfl⟩
                rw [← hs]
                show (s.custom_field_values.map _).find? _ = _
                exact findValueRow_replace hrow' (by simpa using hv0.1) (by simpa using hv0.2)
              next hrow =>
                simp only [Except.ok.injEq, Prod.mk.injEq] at hok
                obtain ⟨hf, hs⟩ := hok
                subst hf
                refine ⟨hfind, hprov', hddConc, ?_⟩
                refine ⟨{
                    id := s.next_id, task_id := tid, custom_field_id := fid,
                    value_text := payload.value_text,
                    value_number := payload.value_number,
                    value_date := payload.value_date,
                    value_boolean := payload.value_boolean,
                    created_at := now }, ?_, rfl, rfl, rfl, rfl⟩
                rw [← hs]
                show (s.custom_field_values ++ [_]).find? _ = _
                exact findValueRow_insert hrow (by simp)
  · intro s actor now tid fid payload t f hacc hfind hpm hprov
    unfold set_task_custom_field
    rw [hacc, hfind]
    simp [hpm, hprov]

/-- The store after the C4 witness call (`value_text` only, on text field
80). -/
def c4OkStore : Store :=
  match set_task_custom_field demoStore 1 9 40 80 { value_text := some "a" } with
  | .ok (_, s) => s
  | .error _ => demoStore

/-- Witness for the amended C4: a well-typed set on text field 80 and a
mistyped set (text slot for number field 82), both applied through the
theorem at concrete inputs. -/
def c4OkRow : TaskCustomFieldValue :=
  { id := 200, task_id := 40, custom_field_id := 80, value_text := some "a",
    value_number := none, value_date := none, value_boolean := none, created_at := 9 }

theorem custom_field_value_typing_witness :
    c4OkStore.findValueRow 40 80 = some c4OkRow ∧
    c4OkRow.value_text = some "a" ∧ c4OkRow.value_number = none ∧
    set_task_custom_field demoStore 1 9 40 82 { value_text := some "a" }
      = .error (.badRequest "Value does not match field type") := by
  obtain ⟨row, hrow, h1, h2, _, _⟩ := (custom_field_value_typing.1 demoStore 1 9 40 80
    { value_text := some "a" }
    { id := 80, name := "txt", type := .text, project_id := 20, created_at := 0 }
    c4OkStore (by decide)).2.2.2
  have hconc : c4OkStore.findValueRow 40 80 = some c4OkRow := by decide
  have hbad := custom_field_value_typing.2 demoStore 1 9 40 82 { value_text := some "a" }
    { id := 40, name := "t40", description := none, project_id := 20, section_id := some 30,
      parent_task_id := none, assignee_id := some 1, creator_id := 1, due_date := none,
      completed_at := none, position := 0, created_at := 5, updated_at := 5 }
    { id := 82, name := "num", type := .number, project_id := 20, created_at := 0 }
    (by decide) (by decide) (by decide) (by decide)
  rw [hconc, Option.some.injEq] at hrow
  refine ⟨hconc, ?_, ?_, hbad⟩
  · rw [hrow]; exact h1
  · rw [hrow]; exact h2

/-! ## C10 — partial updates: null equals omitted -/

/-- PK-lookup after a replace-by-key map, generically in the key
projection. -/
theorem find?_beq_map_replace {α : Type} (key : α → Nat) {l : List α} {k : Nat} {x x' : α}
    (h : l.find? (fun y => key y == k) = some x) (hid : key x' = k) :
    (l.map (fun y => if key y == k then x' else y)).find? (fun y => key y == k) = some x' := by
  induction l with
  | nil => simp at h
  | cons a l ih =>
    by_cases ha : key a = k
    · have hhead : (fun y => if key y == k then x' else y) a = x' := by simp [ha]
      simp only [List.map_cons, hhead]
      exact List.find?_cons_of_pos _ (by simp [hid])
    · have hhead : (fun y => if key y == k then x' else y) a = a := by simp [ha]
      rw [List.find?_cons_of_neg _ (by simp [ha])] at h
      simp only [List.map_cons, hhead]
      rw [List.find?_cons_of_neg _ (by simp [ha])]
      exact ih h

/-- `applyProjectUpdate` written as a single record expression. -/
theorem applyProjectUpdate_eq (p : Project) (u : ProjectUpdate) (now : Nat) :
    applyProjectUpdate p u now =
      { p with
        name := u.name.getD p.name,
        description := match u.description with | some d => some d | none => p.description,
        team_id := match u.team_id with | some t => some t | none => p.team_id,
        is_public := u.is_public.getD p.is_public,
        updated_at :=
          if u.name.isSome || u.description.isSome || u.team_id.isSome || u.is_public.isSome
          then now else p.updated_at } := by
  unfold applyProjectUpdate
  by_cases hw : (u.name.isSome || u.description.isSome || u.team_id.isSome || u.is_public.isSome) = true
  · simp [hw]
  · rw [Bool.not_eq_true] at hw
    simp [hw]

/-- Task 40 of the demo store, its row after the C10 counterexample call,
and the resulting store. -/
def c10Task40 : Task :=
  { id := 40, name := "t40", description := none, project_id := 20, section_id := some 30,
    parent_task_id := none, assignee_id := some 1, creator_id := 1, due_date := none,
    completed_at := none, position := 0, created_at := 5, updated_at := 5 }

def c10UpdatedTask : Task := { c10Task40 with name := "x", updated_at := 9 }

def c10UpdateStore : Store :=
  { demoStore with tasks := demoStore.tasks.map (fun x => if x.id == 40 then c10UpdatedTask else x) }

/-- C10 counterexample: a PATCH naming only `name` also changes the stored
`updated_at` column (the ORM `onupdate` hook), so "all fields not named in
the payload are unchanged" fails as stated. -/
theorem null_equals_omitted_counterexample :
    update_task demoStore 1 9 40 { name := some "x" } = .ok (c10UpdatedTask, c10UpdateStore) ∧
    demoStore.findTask 40 = some c10Task40 ∧
    c10UpdatedTask.updated_at ≠ c10Task40.updated_at := by
  refine ⟨by decide, by decide, by decide⟩

/-- C10 amended: in the PATCH handlers for tasks, projects, tags, sections
and workspaces a null payload field is identical to an omitted one — the
stored field keeps its prior value, so nullable columns (`Task.assignee_id`,
`Task.section_id`, `Task.due_date`, `Project.team_id`, `Tag.color`) can never
be cleared to null through an update — and every column not named in the
payload schema is unchanged EXCEPT the ORM-managed `updated_at` timestamp,
which is refreshed whenever the update writes. -/
theorem null_equals_omitted_in_updates :
    (∀ (s : Store) (actor now tid : Nat) (payload : TaskUpdate) (t₀ t : Task) (s' : Store),
      s.findTask tid = some t₀ →
      update_task s actor now tid payload = .ok (t, s') →
      s'.findTask tid = some t ∧
      (payload.name = none → t.name = t₀.name) ∧
      (payload.description = none → t.description = t₀.description) ∧
      (payload.section_id = none → t.section_id = t₀.section_id) ∧
      (payload.assignee_id = none → t.assignee_id = t₀.assignee_id) ∧
      (payload.due_date = none → t.due_date = t₀.due_date) ∧
      (payload.position = none → t.position = t₀.position) ∧
      (payload.completed = none → t.completed_at = t₀.completed_at) ∧
      (t.assignee_id = none → t₀.assignee_id = none) ∧
      (t.section_id = none → t₀.section_id = none) ∧
      (t.due_date = none → t₀.due_date = none) ∧
      t.project_id = t₀.project_id ∧ t.parent_task_id = t₀.parent_task_id ∧
      t.creator_id = t₀.creator_id ∧ t.created_at = t₀.created_at) ∧
    (∀ (s : Store) (actor now pid : Nat) (payload : ProjectUpdate) (p₀ p : Project) (s' : Store),
      s.findProject pid = some p₀ →
      update_project s actor now pid payload = .ok (p, s') →
      s'.findProject pid = some p ∧
      (payload.name = none → p.name = p₀.name) ∧
      (payload.description = none → p.description = p₀.description) ∧
      (payload.team_id = none → p.team_id = p₀.team_id) ∧
      (payload.is_public = none → p.is_public = p₀.is_public) ∧
      (p.team_id = none → p₀.team_id = none) ∧
      p.workspace_id = p₀.workspace_id ∧ p.owner_id = p₀.owner_id ∧
      p.created_at = p₀.created_at) ∧
    (∀ (s : Store) (actor gid : Nat) (payload : TagUpdate) (g₀ g : Tag) (s' : Store),
      s.findTag gid = some g₀ →
      update_tag s actor gid payload = .ok (g, s') →
      s'.findTag gid = some g ∧
      (payload.name = none → g.name = g₀.name) ∧
      (payload.color = none → g.color = g₀.color) ∧
      (g.color = none → g₀.color = none) ∧
      g.workspace_id = g₀.workspace_id ∧ g.created_at = g₀.created_at) ∧
    (∀ (s : Store) (actor sid : Nat) (payload : SectionUpdate) (x₀ x : Section) (s' : Store),
      s.findSection sid = some x₀ →
      update_section s actor sid payload = .ok (x, s') →
      s'.findSection sid = some x ∧
      (payload.name = none → x.name = x₀.name) ∧
      (payload.position = none → x.position = x₀.position) ∧
      x.project_id = x₀.project_id ∧ x.created_at = x₀.created_at) ∧
    (∀ (s : Store) (actor now wid : Nat) (payload : WorkspaceUpdate) (w₀ w : Workspace) (s' : Store),
      s.findWorkspace wid = some w₀ →
      update_workspace s actor now wid payload = .ok (w, s') →
      s'.findWorkspace wid = some w ∧
      (payload.name = none → w.name = w₀.name) ∧
      w.owner_id = w₀.owner_id ∧ w.created_at = w₀.created_at) := by
  refine ⟨?_, ?_, ?_, ?_, ?_⟩
  · intro s actor now tid payload t₀ t s' h₀ hok
    unfold update_task at hok
    rw [h₀] at hok
    split at hok
    next heq => exact absurd heq (by simp)
    next t₁ heq =>
      rw [Option.some.injEq] at heq
      subst heq
      split at hok
      · exact absurd hok (by simp)
      split at hok
      · exact absurd hok (by simp)
      rw [Except.ok.injEq, Prod.mk.injEq] at hok
      obtain ⟨ht, hs⟩ := hok
      have h₀' : s.tasks.find? (fun x => x.id == tid) = some t₀ := h₀
      have h₀id : t₀.id = tid := find?_id_eq h₀'
      have htid : t.id = tid := by rw [← ht, applyTaskUpdate_eq]; exact h₀id
      refine ⟨?_, ?_, ?_, ?_, ?_, ?_, ?_, ?_, ?_, ?_, ?_, ?_, ?_, ?_, ?_⟩
      · rw [← hs]
        show (s.tasks.map _).find? _ = some t
        rw [ht]
        exact find?_map_replace h₀' htid
      · intro hv; rw [← ht, applyTaskUpdate_eq]; simp [hv]
      · intro hv; rw [← ht, applyTaskUpdate_eq]; simp [hv]
      · intro hv; rw [← ht, applyTaskUpdate_eq]; simp [hv]
      · intro hv; rw [← ht, applyTaskUpdate_eq]; simp [hv]
      · intro hv; rw [← ht, applyTaskUpdate_eq]; simp [hv]
      · intro hv; rw [← ht, applyTaskUpdate_eq]; simp [hv]
      · intro hv; rw [← ht, applyTaskUpdate_eq]; simp [hv]
      · rw [← ht, applyTaskUpdate_eq]
        cases hv : payload.assignee_id <;> simp [hv]
      · rw [← ht, applyTaskUpdate_eq]
        cases hv : payload.section_id <;> simp [hv]
      · rw [← ht, applyTaskUpdate_eq]
        cases hv : payload.due_date <;> simp [hv]
      · rw [← ht, applyTaskUpdate_eq]
      · rw [← ht, applyTaskUpdate_eq]
      · rw [← ht, applyTaskUpdate_eq]
      · rw [← ht, applyTaskUpdate_eq]
  · intro s actor now pid payload p₀ p s' h₀ hok
    unfold update_project at hok
    rw [h₀] at hok
    split at hok
    next heq => exact absurd heq (by simp)
    next p₁ heq =>
      rw [Option.some.injEq] at heq
      subst heq
      split at hok
      next hown =>
        rw [Except.ok.injEq, Prod.mk.injEq] at hok
        obtain ⟨hp, hs⟩ := hok
        have h₀' : s.projects.find? (fun y => y.id == pid) = some p₀ := h₀
        have h₀id : p₀.id = pid := by simpa using List.find?_some h₀'
        have hpid : p.id = pid := by rw [← hp, applyProjectUpdate_eq]; exact h₀id
        refine ⟨?_, ?_, ?_, ?_, ?_, ?_, ?_, ?_, ?_⟩
        · rw [← hs]
          show (s.projects.map _).find? _ = some p
          rw [hp]
          exact find?_beq_map_replace (fun y : Project => y.id) h₀' hpid
        · intro hv; rw [← hp, applyProjectUpdate_eq]; simp [hv]
        · intro hv; rw [← hp, applyProjectUpdate_eq]; simp [hv]
        · intro hv; rw [← hp, applyProjectUpdate_eq]; simp [hv]
        · intro hv; rw [← hp, applyProjectUpdate_eq]; simp [hv]
        · rw [← hp, applyProjectUpdate_eq]
          cases hv : payload.team_id <;> simp [hv]
        · rw [← hp, applyProjectUpdate_eq]
        · rw [← hp, applyProjectUpdate_eq]
        · rw [← hp, applyProjectUpdate_eq]
      next hown => exact absurd hok (by simp)
  · intro s actor gid payload g₀ g s' h₀ hok
    unfold update_tag at hok
    rw [h₀] at hok
    split at hok
    next heq => exact absurd heq (by simp)
    next g₁ heq =>
      rw [Option.some.injEq] at heq
      subst heq
      split at hok
      · exact absurd hok (by simp)
      rw [Except.ok.injEq, Prod.mk.injEq] at hok
      obtain ⟨hg, hs⟩ := hok
      have h₀' : s.tags.find? (fun y => y.id == gid) = some g₀ := h₀
      have h₀id : g₀.id = gid := by simpa using List.find?_some h₀'
      have hgid : g.id = gid := by rw [← hg]; exact h₀id
      refine ⟨?_, ?_, ?_, ?_, ?_, ?_⟩
      · rw [← hs]
        show (s.tags.map _).find? _ = some g
        rw [hg]
        exact find?_beq_map_replace (fun y : Tag => y.id) h₀' hgid
      · intro hv; rw [← hg]; simp [hv]
      · intro hv; rw [← hg]; simp [hv]
      · rw [← hg]
        cases hv : payload.color <;> simp [hv]
      · rw [← hg]
      · rw [← hg]
  · intro s actor sid payload x₀ x s' h₀ hok
    unfold update_section at hok
    rw [h₀] at hok
    split at hok
    next heq => exact absurd heq (by simp)
    next x₁ heq =>
      rw [Option.some.injEq] at heq
      subst heq
      split at hok
      · exact absurd hok (by simp)
      split at hok
      · exact absurd hok (by simp)
      rw [Except.ok.injEq, Prod.mk.injEq] at hok
      obtain ⟨hx, hs⟩ := hok
      have h₀' : s.sections.find? (fun y => y.id == sid) = some x₀ := h₀
      have h₀id : x₀.id = sid := by simpa using List.find?_some h₀'
      have hxid : x.id = sid := by rw [← hx]; exact h₀id
      refine ⟨?_, ?_, ?_, ?_, ?_⟩
      · rw [← hs]
        show (s.sections.map _).find? _ = some x
        rw [hx]
        exact find?_beq_map_replace (fun y : Section => y.id) h₀' hxid
      · intro hv; rw [← hx]; simp [hv]
      · intro hv; rw [← hx]; simp [hv]
      · rw [← hx]
      · rw [← hx]
  · intro s actor now wid payload w₀ w s' h₀ hok
    unfold update_workspace at hok
    rw [h₀] at hok
    split at hok
    next heq => exact absurd heq (by simp)
    next w₁ heq =>
      rw [Option.some.injEq] at heq
      subst heq
      split at hok
      next hown =>
        rw [Except.ok.injEq, Prod.mk.injEq] at hok
        obtain ⟨hw, hs⟩ := hok
        have h₀' : s.workspaces.find? (fun y => y.id == wid) = some w₀ := h₀
        have h₀id : w₀.id = wid := by simpa using List.find?_some h₀'
        have hwid : w.id = wid := by
          rw [← hw]
          cases hv : payload.name <;> simp [hv, h₀id]
        refine ⟨?_, ?_, ?_, ?_⟩
        · rw [← hs]
          show (s.workspaces.map _).find? _ = some w
          rw [hw]
          exact find?_beq_map_replace (fun y : Workspace => y.id) h₀' hwid
        · intro hv; rw [← hw]; simp [hv]
        · rw [← hw]
          cases hv : payload.name <;> simp [hv]
        · rw [← hw]
          cases hv : payload.name <;> simp [hv]
      next hown => exact absurd hok (by simp)

/-- The row and store after the C10 witness PATCH (naming only
`description`). -/
def c10DescribedTask : Task := { c10Task40 with description := some "d", updated_at := 9 }

def c10DescribeStore : Store :=
  { demoStore with
    tasks := demoStore.tasks.map (fun x => if x.id == 40 then c10DescribedTask else x) }

/-- Witness for the amended C10: a PATCH on task 40 naming only
`description` keeps its assignee, section, due date and completion state. -/
theorem null_equals_omitted_in_updates_witness :
    c10DescribedTask.assignee_id = some 1 ∧ c10DescribedTask.section_id = some 30 ∧
    c10DescribedTask.due_date = none ∧ c10DescribedTask.completed_at = none ∧
    c10DescribedTask.project_id = 20 := by
  have h := null_equals_omitted_in_updates.1 demoStore 1 9 40 { description := some "d" }
    c10Task40 c10DescribedTask c10DescribeStore (by decide) (by decide)
  refine ⟨?_, ?_, ?_, ?_, ?_⟩
  · rw [h.2.2.2.2.1 rfl]; decide
  · rw [h.2.2.2.1 rfl]; decide
  · rw [h.2.2.2.2.2.1 rfl]; decide
  · rw [h.2.2.2.2.2.2.2.1 rfl]; decide
  · rw [h.2.2.2.2.2.2.2.2.2.2.2.1]; decide

/-! ## C8 — pagination of `list_tasks` -/

/-- Sum of the first `n` page sizes of a list paged by `L`. -/
theorem pages_partial_sum {α : Type} (l : List α) (L : Nat) :
    ∀ n : Nat, ((List.range n).map (fun i => ((l.drop (i * L)).take L).length)).sum
      = min (n * L) l.length := by
  intro n
  induction n with
  | zero => simp
  | succ n ih =>
    rw [List.range_succ, List.map_append, List.sum_append, ih]
    simp only [List.map_cons, List.map_nil, List.sum_cons, List.sum_nil]
    have hlen : ((l.drop (n * L)).take L).length = min L (l.length - n * L) := by
      simp [List.length_take, List.length_drop]
    rw [hlen]
    have : (n + 1) * L = n * L + L := by ring
    rw [this]
    omega

/-- Paging a list by `L > 0` over all `⌈length / L⌉` offsets exhausts it:
the page sizes sum to the length. -/
theorem pages_sum_total {α : Type} (l : List α) (L : Nat) (hL : 0 < L) :
    ((List.range ((l.length + L - 1) / L)).map
      (fun i => ((l.drop (i * L)).take L).length)).sum = l.length := by
  rw [pages_partial_sum l L]
  have h := Nat.div_add_mod (l.length + L - 1) L
  rw [Nat.mul_comm L ((l.length + L - 1) / L)] at h
  have h2 : (l.length + L - 1) % L < L := Nat.mod_lt _ hL
  omega

/-- Distinct page-aligned offsets yield key-disjoint pages of a list whose
keys are Nodup. -/
theorem pages_key_disjoint {α : Type} (l : List α) (key : α → Nat)
    (hnd : (l.map key).Nodup) (L : Nat) :
    ∀ i j : Nat, i ≠ j →
      ∀ x ∈ (l.drop (i * L)).take L, ∀ y ∈ (l.drop (j * L)).take L, key x ≠ key y := by
  have main : ∀ i j : Nat, i < j →
      ∀ x ∈ (l.drop (i * L)).take L, ∀ y ∈ (l.drop (j * L)).take L, key x ≠ key y := by
    intro i j hij x hx y hy hkey
    set l₁ := l.drop (i * L) with hl₁
    have hjL : i * L + L ≤ j * L := by
      have h1 : (i + 1) * L ≤ j * L := Nat.mul_le_mul_right L hij
      have h2 : (i + 1) * L = i * L + L := by ring
      omega
    have hdropEq : l.drop (j * L) = (l₁.drop L).drop (j * L - (i * L + L)) := by
      rw [hl₁, List.drop_drop, List.drop_drop]
      congr 1
      omega
    have hyIn : y ∈ l₁.drop L := by
      have : y ∈ l.drop (j * L) := List.mem_of_mem_take hy
      rw [hdropEq] at this
      exact List.mem_of_mem_drop this
    have hnd₁ : (l₁.map key).Nodup :=
      hnd.sublist ((List.drop_sublist _ _).map key)
    have hsplit : l₁.map key = (l₁.take L).map key ++ (l₁.drop L).map key := by
      rw [← List.map_append, List.take_append_drop]
    rw [hsplit, List.nodup_append] at hnd₁
    exact hnd₁.2.2 (List.mem_map_of_mem key hx) (hkey ▸ List.mem_map_of_mem key hyIn)
  intro i j hne x hx y hy
  rcases Nat.lt_or_ge i j with hij | hij
  · exact main i j hij x hx y hy
  · have hji : j < i := Nat.lt_of_le_of_ne hij (Ne.symm hne)
    exact fun he => main j i hji y hy x hx he.symm

/-- C8: for a fixed filter and unchanged store, every page call of
`list_tasks` succeeds and returns `total` computed by the SAME predicate the
page query uses; the page sizes over all page-aligned offsets sum to
`total`; and (primary keys being unique) no task id appears on two
different pages. -/
theorem list_tasks_pagination :
    ∀ (s : Store) (actor : Nat) (q : TaskListQuery) (af : Option Int),
      s.isMember actor q.workspace_id = true →
      resolveAssigneeFilter actor q.assignee = .ok af →
      0 < q.limit →
      (s.tasks.map (fun t => t.id)).Nodup →
      (∀ off : Nat, list_tasks s actor { q with offset := off }
          = .ok { data := ((filteredTasks s q af).drop off).take q.limit,
                  total := (s.tasks.filter (taskMatches s q af)).length,
                  limit := q.limit, offset := off }) ∧
      ((List.range (((s.tasks.filter (taskMatches s q af)).length + q.limit - 1) / q.limit)).map
          (fun i => (((filteredTasks s q af).drop (i * q.limit)).take q.limit).length)).sum
        = (s.tasks.filter (taskMatches s q af)).length ∧
      (∀ i j : Nat, i ≠ j →
        ∀ t₁ ∈ ((filteredTasks s q af).drop (i * q.limit)).take q.limit,
        ∀ t₂ ∈ ((filteredTasks s q af).drop (j * q.limit)).take q.limit,
          t₁.id ≠ t₂.id) := by
  intro s actor q af hm haf hL hnd
  have hlen : (filteredTasks s q af).length = (s.tasks.filter (taskMatches s q af)).length := by
    rw [filteredTasks, List.length_insertionSort]
  have hndFiltered : ((filteredTasks s q af).map (fun t => t.id)).Nodup := by
    have hsub : ((s.tasks.filter (taskMatches s q af)).map (fun t => t.id)).Nodup :=
      hnd.sublist ((List.filter_sublist _).map _)
    have hperm := (List.perm_insertionSort createdDesc (s.tasks.filter (taskMatches s q af))).map
      (fun t => t.id)
    exact (hperm.nodup_iff).2 hsub
  refine ⟨?_, ?_, ?_⟩
  · intro off
    unfold list_tasks _assert_workspace_access
    simp [hm, haf, filteredTasks,
      show taskMatches s { q with offset := off } af = taskMatches s q af from rfl]
  · rw [← hlen]
    exact pages_sum_total _ q.limit hL
  · exact pages_key_disjoint _ (fun t : Task => t.id) hndFiltered q.limit

/-- Witness for C8 on the demo store: workspace 10 holds tasks 41 (newer)
and 40; with `limit = 1` the two page calls return them one per page with
`total = 2`. -/
theorem list_tasks_pagination_witness :
    list_tasks demoStore 1 { workspace_id := 10, limit := 1, offset := 0 }
      = .ok { data := [c3Task41], total := 2, limit := 1, offset := 0 } ∧
    list_tasks demoStore 1 { workspace_id := 10, limit := 1, offset := 1 }
      = .ok { data := [c10Task40], total := 2, limit := 1, offset := 1 } := by
  have h := list_tasks_pagination demoStore 1 { workspace_id := 10, limit := 1 } none
    (by decide) (by decide) (by decide) (by decide)
  exact ⟨(h.1 0).trans (by decide), (h.1 1).trans (by decide)⟩

/-! ## C2 — ownership gates hold for workspace/project/comment but NOT for
attachment/custom-field deletion -/

/-- C2 counterexample: user 1 is a member of workspace 10 but NOT the
uploader of attachment 70 (uploaded by user 2), yet `delete_attachment`
succeeds; user 2 is a member but not the owner of project 20 (owned by
user 1), yet `delete_custom_field` succeeds on field 80. -/
theorem ownership_gates_counterexample :
    (delete_attachment demoStore 1 70).isOk = true ∧
    demoStore.findAttachment 70
      = some { id := 70, filename := "f", url := "http://u", task_id := some 40,
               comment_id := none, uploader_id := some 2, created_at := 0 } ∧
    (2 : Nat) ≠ 1 ∧
    (delete_custom_field demoStore 2 80).isOk = true ∧
    demoStore.findProject 20
      = some { id := 20, name := "P", description := none, workspace_id := 10, team_id := none,
               owner_id := some 1, is_public := true, created_at := 0, updated_at := 0 } ∧
    some (1 : Nat) ≠ some 2 := by
  refine ⟨by decide, by decide, by decide, by decide, by decide, by decide⟩

/-- The store after `delete_workspace demoStore 1 10`. -/
def c2wsDeleteStore : Store :=
  match delete_workspace demoStore 1 10 with
  | .ok (_, s) => s
  | .error _ => demoStore

/-- The store after `delete_project demoStore 1 20`. -/
def c2projDeleteStore : Store :=
  match delete_project demoStore 1 20 with
  | .ok (_, s) => s
  | .error _ => demoStore

/-- The store after `delete_comment demoStore 1 60`. -/
def c2commentDeleteStore : Store :=
  match delete_comment demoStore 1 60 with
  | .ok (_, s) => s
  | .error _ => demoStore

/-- The stores after the three C2 update calls. -/
def c2wsUpdateStore : Store :=
  match update_workspace demoStore 1 9 10 { name := some "W2" } with
  | .ok (_, s) => s
  | .error _ => demoStore

def c2projUpdateStore : Store :=
  match update_project demoStore 1 9 20 { name := some "P2" } with
  | .ok (_, s) => s
  | .error _ => demoStore

def c2commentUpdateStore : Store :=
  match update_comment demoStore 1 9 60 { content := some "yo" } with
  | .ok (_, s) => s
  | .error _ => demoStore

/-- C2 amended: update/delete of Workspace and Project succeed only for the
owner, update/delete of a Comment only for its author; but deleting an
Attachment or a CustomField requires workspace membership only — any member
who is not the uploader / not the project owner succeeds (CustomField has no
owner column at all). -/
theorem ownership_and_membership_gates :
    (∀ (s : Store) (actor now wid : Nat) (payload : WorkspaceUpdate) (w' : Workspace) (s' : Store),
      update_workspace s actor now wid payload = .ok (w', s') →
      ∀ w₀, s.findWorkspace wid = some w₀ → w₀.owner_id = actor) ∧
    (∀ (s : Store) (actor wid : Nat) (s' : Store),
      delete_workspace s actor wid = .ok ((), s') →
      ∀ w₀, s.findWorkspace wid = some w₀ → w₀.owner_id = actor) ∧
    (∀ (s : Store) (actor now pid : Nat) (payload : ProjectUpdate) (p' : Project) (s' : Store),
      update_project s actor now pid payload = .ok (p', s') →
      ∀ p₀, s.findProject pid = some p₀ → p₀.owner_id = some actor) ∧
    (∀ (s : Store) (actor pid : Nat) (s' : Store),
      delete_project s actor pid = .ok ((), s') →
      ∀ p₀, s.findProject pid = some p₀ → p₀.owner_id = some actor) ∧
    (∀ (s : Store) (actor now cid : Nat) (payload : CommentUpdate) (c' : Comment) (s' : Store),
      update_comment s actor now cid payload = .ok (c', s') →
      ∀ c₀, s.findComment cid = some c₀ → c₀.author_id = actor) ∧
    (∀ (s : Store) (actor cid : Nat) (s' : Store),
      delete_comment s actor cid = .ok ((), s') →
      ∀ c₀, s.findComment cid = some c₀ → c₀.author_id = actor) ∧
    (∀ (s : Store) (actor aid tid0 : Nat) (a : Attachment) (t : Task) (p : Project),
      s.findAttachment aid = some a → a.task_id = some tid0 → s.findTask tid0 = some t →
      s.findProject t.project_id = some p → s.isMember actor p.workspace_id = true →
      a.uploader_id ≠ some actor →
      (delete_attachment s actor aid).isOk = true) ∧
    (∀ (s : Store) (actor fid : Nat) (f : CustomField) (p : Project),
      s.findCustomField fid = some f → s.findProject f.project_id = some p →
      s.isMember actor p.workspace_id = true → p.owner_id ≠ some actor →
      (delete_custom_field s actor fid).isOk = true) := by
  refine ⟨?_, ?_, ?_, ?_, ?_, ?_, ?_, ?_⟩
  · intro s actor now wid payload w' s' hok
    unfold update_workspace at hok
    split at hok
    · exact absurd hok (by simp)
    next w heq =>
      split at hok
      next hown =>
        intro w₀ hw₀
        rw [heq, Option.some.injEq] at hw₀
        rw [← hw₀]
        simpa using hown
      next hown => exact absurd hok (by simp)
  · intro s actor wid s' hok
    unfold delete_workspace at hok
    split at hok
    · exact absurd hok (by simp)
    next w heq =>
      split at hok
      next hown =>
        intro w₀ hw₀
        rw [heq, Option.some.injEq] at hw₀
        rw [← hw₀]
        simpa using hown
      next hown => exact absurd hok (by simp)
  · intro s actor now pid payload p' s' hok
    unfold update_project at hok
    split at hok
    · exact absurd hok (by simp)
    next p heq =>
      split at hok
      next hown =>
        intro p₀ hp₀
        rw [heq, Option.some.injEq] at hp₀
        rw [← hp₀]
        simpa using hown
      next hown => exact absurd hok (by simp)
  · intro s actor pid s' hok
    unfold delete_project at hok
    split at hok
    · exact absurd hok (by simp)
    next p heq =>
      split at hok
      next hown =>
        intro p₀ hp₀
        rw [heq, Option.some.injEq] at hp₀
        rw [← hp₀]
        simpa using hown
      next hown => exact absurd hok (by simp)
  · intro s actor now cid payload c' s' hok
    unfold update_comment at hok
    split at hok
    · exact absurd hok (by simp)
    next c heq =>
      split at hok
      next hown =>
        intro c₀ hc₀
        rw [heq, Option.some.injEq] at hc₀
        rw [← hc₀]
        simpa using hown
      next hown => exact absurd hok (by simp)
  · intro s actor cid s' hok
    unfold delete_comment at hok
    split at hok
    · exact absurd hok (by simp)
    next c heq =>
      split at hok
      next hown =>
        intro c₀ hc₀
        rw [heq, Option.some.injEq] at hc₀
        rw [← hc₀]
        simpa using hown
      next hown => exact absurd hok (by simp)
  · intro s actor aid tid0 a t p ha hat htask hproj hm _
    unfold delete_attachment
    rw [ha]
    simp [hat, htask, Attachments._ensure_task_access, hproj, hm]
    rfl
  · intro s actor fid f p hf hproj hm _
    unfold delete_custom_field
    rw [hf]
    simp [CustomFields._ensure_project_access, hproj, hm]
    rfl

/-- Witness for the amended C2: each conjunct applied at concrete inputs on
the demo store. -/
theorem ownership_and_membership_gates_witness :
    ({ id := 10, name := "W", owner_id := 1, created_at := 0,
        updated_at := 0 } : Workspace).owner_id = 1 ∧
    ({ id := 20, name := "P", description := none, workspace_id := 10, team_id := none,
        owner_id := some 1, is_public := true, created_at := 0,
        updated_at := 0 } : Project).owner_id = some 1 ∧
    ({ id := 60, content := "hi", task_id := 40, author_id := 1, created_at := 0,
        updated_at := 0 } : Comment).author_id = 1 ∧
    (delete_attachment demoStore 1 70).isOk = true ∧
    (delete_custom_field demoStore 2 80).isOk = true := by
  have h₁ := ownership_and_membership_gates.1 demoStore 1 9 10 { name := some "W2" }
    { id := 10, name := "W2", owner_id := 1, created_at := 0, updated_at := 9 }
    c2wsUpdateStore (by decide)
    { id := 10, name := "W", owner_id := 1, created_at := 0, updated_at := 0 } (by decide)
  have h₂ := (ownership_and_membership_gates.2.2.2.1) demoStore 1 20 c2projDeleteStore (by decide)
    { id := 20, name := "P", description := none, workspace_id := 10, team_id := none,
      owner_id := some 1, is_public := true, created_at := 0, updated_at := 0 } (by decide)
  have h₃ := (ownership_and_membership_gates.2.2.2.2.2.1) demoStore 1 60 c2commentDeleteStore (by decide)
    { id := 60, content := "hi", task_id := 40, author_id := 1, created_at := 0,
      updated_at := 0 } (by decide)
  have h₄ := (ownership_and_membership_gates.2.2.2.2.2.2.1) demoStore 1 70 40
    { id := 70, filename := "f", url := "http://u", task_id := some 40,
      comment_id := none, uploader_id := some 2, created_at := 0 }
    { id := 40, name := "t40", description := none, project_id := 20, section_id := some 30,
      parent_task_id := none, assignee_id := some 1, creator_id := 1, due_date := none,
      completed_at := none, position := 0, created_at := 5, updated_at := 5 }
    { id := 20, name := "P", description := none, workspace_id := 10, team_id := none,
      owner_id := some 1, is_public := true, created_at := 0, updated_at := 0 }
    (by decide) (by decide) (by decide) (by decide) (by decide) (by decide)
  have h₅ := (ownership_and_membership_gates.2.2.2.2.2.2.2) demoStore 2 80
    { id := 80, name := "txt", type := .text, project_id := 20, created_at := 0 }
    { id := 20, name := "P", description := none, workspace_id := 10, team_id := none,
      owner_id := some 1, is_public := true, created_at := 0, updated_at := 0 }
    (by decide) (by decide) (by decide) (by decide)
  exact ⟨h₁, h₂, h₃, h₄, h₅⟩

/-- Witness for the amended C6 at the concrete mismatch on the demo store. -/
theorem tag_workspace_mismatch_rejected_witness :
    assign_tag_to_task demoStore 1 40 51
      = .error (.badRequest "Tag and task must belong to same workspace") :=
  (tag_workspace_mismatch_rejected demoStore 1 40 51
      { id := 40, name := "t40", description := none, project_id := 20, section_id := some 30,
        parent_task_id := none, assignee_id := some 1, creator_id := 1, due_date := none,
        completed_at := none, position := 0, created_at := 5, updated_at := 5 }
      { id := 51, name := "other", color := none, workspace_id := 11, created_at := 0 }
      { id := 20, name := "P", description := none, workspace_id := 10, team_id := none,
        owner_id := some 1, is_public := true, created_at := 0, updated_at := 0 }
      (by decide) (by decide) (by decide) (by decide) (by decide)).1

/-! ## C1 — workspace membership gates every operation -/

/-- A failed operation persists nothing: the store after the call is the
store before it. -/
theorem execOp_eq_of_error {op : Op} {s : Store} {actor now : Nat} {f : Failure}
    (h : applyOp op s actor now = .error f) : execOp op s actor now = s := by
  simp [execOp, h]

/-- A primary-key lookup returns a row with that key. -/
theorem find?_key_eq {α : Type} (key : α → Nat) {l : List α} {k : Nat} {x : α}
    (h : l.find? (fun y => key y == k) = some x) : key x = k := by
  simpa using List.find?_some h

/-- C1: for EVERY workspace-scoped operation, an actor without a Membership
row for the operation's resolved workspace is rejected with a typed failure
(`(…).isOk = false`, the result being `Except Failure _`) and the store
after the call equals the store before it. The owner-gated paths
(workspace/project update and delete) check `owner_id`, not membership, so
the claim holds there through the reachable-state invariant
`OwnersAreMembers` (owners always hold a membership row — see
`applyOp_preserves_ownersAreMembers`). -/
theorem membership_gates_all_operations :
    ∀ (op : Op) (s : Store) (actor now w : Nat),
      OwnersAreMembers s →
      opWorkspace op s = some w →
      s.isMember actor w = false →
      (applyOp op s actor now).isOk = false ∧ execOp op s actor now = s := by
  intro op s actor now w hInv hw hm
  cases op with
  | readWorkspaceOp wid =>
    simp only [opWorkspace, Option.map_eq_some'] at hw
    obtain ⟨ws, hfind, hwid⟩ := hw
    subst hwid
    have hid : ws.id = wid := find?_key_eq (fun y : Workspace => y.id) hfind
    have hm' : s.isMember actor wid = false := hid ▸ hm
    have happ : applyOp (Op.readWorkspaceOp wid) s actor now
        = .error (.forbidden "Not a member of workspace") := by
      simp [applyOp, read_workspace, hfind, hm', Except.map]
    exact ⟨by rw [happ]; rfl, execOp_eq_of_error happ⟩
  | updateWorkspaceOp wid p =>
    simp only [opWorkspace, Option.map_eq_some'] at hw
    obtain ⟨ws, hfind, hwid⟩ := hw
    subst hwid
    have hid : ws.id = wid := find?_key_eq (fun y : Workspace => y.id) hfind
    have hm' : s.isMember actor wid = false := hid ▸ hm
    have hne : (ws.owner_id == actor) = false := by
      cases hcase : (ws.owner_id == actor) with
      | false => rfl
      | true =>
        exfalso
        have heq : ws.owner_id = actor := by simpa using hcase
        have hmem := hInv.1 ws (List.mem_of_find?_eq_some hfind)
        rw [heq, hid, hm'] at hmem
        simp at hmem
    have happ : applyOp (Op.updateWorkspaceOp wid p) s actor now
        = .error (.forbidden "Only owner may update workspace") := by
      simp [applyOp, update_workspace, hfind, hne, Except.map]
    exact ⟨by rw [happ]; rfl, execOp_eq_of_error happ⟩
  | deleteWorkspaceOp wid =>
    simp only [opWorkspace, Option.map_eq_some'] at hw
    obtain ⟨ws, hfind, hwid⟩ := hw
    subst hwid
    have hid : ws.id = wid := find?_key_eq (fun y : Workspace => y.id) hfind
    have hm' : s.isMember actor wid = false := hid ▸ hm
    have hne : (ws.owner_id == actor) = false := by
      cases hcase : (ws.owner_id == actor) with
      | false => rfl
      | true =>
        exfalso
        have heq : ws.owner_id = actor := by simpa using hcase
        have hmem := hInv.1 ws (List.mem_of_find?_eq_some hfind)
        rw [heq, hid, hm'] at hmem
        simp at hmem
    have happ : applyOp (Op.deleteWorkspaceOp wid) s actor now
        = .error (.forbidden "Only owner may delete workspace") := by
      simp [applyOp, delete_workspace, hfind, hne, Except.map]
    exact ⟨by rw [happ]; rfl, execOp_eq_of_error happ⟩
  | listProjectsOp wid =>
    simp only [opWorkspace, Option.some.injEq] at hw
    subst hw
    have happ : applyOp (Op.listProjectsOp wid) s actor now
        = .error (.forbidden "Not a member of workspace") := by
      simp [applyOp, list_projects, hm, Except.map]
    exact ⟨by rw [happ]; rfl, execOp_eq_of_error happ⟩
  | createProjectOp p =>
    simp only [opWorkspace, Option.some.injEq] at hw
    subst hw
    have happ : applyOp (Op.createProjectOp p) s actor now
        = .error (.forbidden "Not a member of workspace") := by
      simp [applyOp, create_project, hm, Except.map]
    exact ⟨by rw [happ]; rfl, execOp_eq_of_error happ⟩
  | readProjectOp pid =>
    simp only [opWorkspace, Option.map_eq_some'] at hw
    obtain ⟨pr, hfind, hwp⟩ := hw
    subst hwp
    have happ : applyOp (Op.readProjectOp pid) s actor now
        = .error (.forbidden "Not a member of workspace") := by
      simp [applyOp, read_project, hfind, hm, Except.map]
    exact ⟨by rw [happ]; rfl, execOp_eq_of_error happ⟩
  | updateProjectOp pid p =>
    simp only [opWorkspace, Option.map_eq_some'] at hw
    obtain ⟨pr, hfind, hwp⟩ := hw
    subst hwp
    have hne : (pr.owner_id == some actor) = false := by
      cases hcase : (pr.owner_id == some actor) with
      | false => rfl
      | true =>
        exfalso
        have heq : pr.owner_id = some actor := by simpa using hcase
        have hmem := hInv.2 pr (List.mem_of_find?_eq_some hfind) actor heq
        rw [hm] at hmem
        simp at hmem
    have happ : applyOp (Op.updateProjectOp pid p) s actor now
        = .error (.forbidden "Only owner may update project") := by
      simp [applyOp, update_project, hfind, hne, Except.map]
    exact ⟨by rw [happ]; rfl, execOp_eq_of_error happ⟩
  | deleteProjectOp pid =>
    simp only [opWorkspace, Option.map_eq_some'] at hw
    obtain ⟨pr, hfind, hwp⟩ := hw
    subst hwp
    have hne : (pr.owner_id == some actor) = false := by
      cases hcase : (pr.owner_id == some actor) with
      | false => rfl
      | true =>
        exfalso
        have heq : pr.owner_id = some actor := by simpa using hcase
        have hmem := hInv.2 pr (List.mem_of_find?_eq_some hfind) actor heq
        rw [hm] at hmem
        simp at hmem
    have happ : applyOp (Op.deleteProjectOp pid) s actor now
        = .error (.forbidden "Only owner may delete project") := by
      simp [applyOp, delete_project, hfind, hne, Except.map]
    exact ⟨by rw [happ]; rfl, execOp_eq_of_error happ⟩
  | listSectionsOp pid =>
    simp only [opWorkspace, Option.map_eq_some'] at hw
    obtain ⟨pr, hfind, hwp⟩ := hw
    subst hwp
    have happ : applyOp (Op.listSectionsOp pid) s actor now
        = .error (.forbidden "Not a member of workspace") := by
      simp [applyOp, list_sections, hfind, _assert_workspace_membership, hm, Except.map]
    exact ⟨by rw [happ]; rfl, execOp_eq_of_error happ⟩
  | createSectionOp p =>
    simp only [opWorkspace, Option.map_eq_some'] at hw
    obtain ⟨pr, hfind, hwp⟩ := hw
    subst hwp
    have happ : applyOp (Op.createSectionOp p) s actor now
        = .error (.forbidden "Not a member of workspace") := by
      simp [applyOp, create_section, hfind, _assert_workspace_membership, hm, Except.map]
    exact ⟨by rw [happ]; rfl, execOp_eq_of_error happ⟩
  | updateSectionOp sid p =>
    simp only [opWorkspace, Option.bind_eq_some, Option.map_eq_some'] at hw
    obtain ⟨sec, hsec, pr, hpr, hwp⟩ := hw
    subst hwp
    have happ : applyOp (Op.updateSectionOp sid p) s actor now
        = .error (.forbidden "Not a member of workspace") := by
      simp [applyOp, update_section, hsec, hpr, _assert_workspace_membership, hm, Except.map]
    exact ⟨by rw [happ]; rfl, execOp_eq_of_error happ⟩
  | deleteSectionOp sid =>
    simp only [opWorkspace, Option.bind_eq_some, Option.map_eq_some'] at hw
    obtain ⟨sec, hsec, pr, hpr, hwp⟩ := hw
    subst hwp
    have happ : applyOp (Op.deleteSectionOp sid) s actor now
        = .error (.forbidden "Not a member of workspace") := by
      simp [applyOp, delete_section, hsec, hpr, _assert_workspace_membership, hm, Except.map]
    exact ⟨by rw [happ]; rfl, execOp_eq_of_error happ⟩
  | listTasksOp q =>
    simp only [opWorkspace, Option.some.injEq] at hw
    subst hw
    have happ : applyOp (Op.listTasksOp q) s actor now
        = .error (.forbidden "Not a member of workspace") := by
      simp [applyOp, list_tasks, _assert_workspace_access, hm, Except.map]
    exact ⟨by rw [happ]; rfl, execOp_eq_of_error happ⟩
  | createTaskOp p =>
    simp only [opWorkspace, Option.map_eq_some'] at hw
    obtain ⟨pr, hfind, hwp⟩ := hw
    subst hwp
    have happ : applyOp (Op.createTaskOp p) s actor now
        = .error (.forbidden "Not a member of workspace") := by
      simp [applyOp, create_task, hfind, _assert_workspace_access, hm, Except.map]
    exact ⟨by rw [happ]; rfl, execOp_eq_of_error happ⟩
  | readTaskOp tid =>
    simp only [opWorkspace, Option.bind_eq_some, Option.map_eq_some'] at hw
    obtain ⟨t, ht, pr, hp, hwp⟩ := hw
    subst hwp
    have happ : applyOp (Op.readTaskOp tid) s actor now
        = .error (.forbidden "Not a member of workspace") := by
      simp [applyOp, read_task, ht, hp, _assert_workspace_access, hm, Except.map]
    exact ⟨by rw [happ]; rfl, execOp_eq_of_error happ⟩
  | updateTaskOp tid p =>
    simp only [opWorkspace, Option.bind_eq_some, Option.map_eq_some'] at hw
    obtain ⟨t, ht, pr, hp, hwp⟩ := hw
    subst hwp
    have happ : applyOp (Op.updateTaskOp tid p) s actor now
        = .error (.forbidden "Not a member of workspace") := by
      simp [applyOp, update_task, ht, hp, _assert_workspace_access, hm, Except.map]
    exact ⟨by rw [happ]; rfl, execOp_eq_of_error happ⟩
  | deleteTaskOp tid =>
    simp only [opWorkspace, Option.bind_eq_some, Option.map_eq_some'] at hw
    obtain ⟨t, ht, pr, hp, hwp⟩ := hw
    subst hwp
    have happ : applyOp (Op.deleteTaskOp tid) s actor now
        = .error (.forbidden "Not a member of workspace") := by
      simp [applyOp, delete_task, ht, hp, _assert_workspace_access, hm, Except.map]
    exact ⟨by rw [happ]; rfl, execOp_eq_of_error happ⟩
  | listCommentsOp tid =>
    simp only [opWorkspace, Option.bind_eq_some, Option.map_eq_some'] at hw
    obtain ⟨t, ht, pr, hp, hwp⟩ := hw
    subst hwp
    have happ : applyOp (Op.listCommentsOp tid) s actor now
        = .error (.forbidden "Not a member of workspace") := by
      simp [applyOp, list_task_comments, ht, _assert_comment_access, hp, hm, Except.map]
    exact ⟨by rw [happ]; rfl, execOp_eq_of_error happ⟩
  | createCommentOp tid body =>
    simp only [opWorkspace, Option.bind_eq_some, Option.map_eq_some'] at hw
    obtain ⟨t, ht, pr, hp, hwp⟩ := hw
    subst hwp
    have happ : applyOp (Op.createCommentOp tid body) s actor now
        = .error (.forbidden "Not a member of workspace") := by
      simp [applyOp, create_task_comment, ht, _assert_comment_access, hp, hm, Except.map]
    exact ⟨by rw [happ]; rfl, execOp_eq_of_error happ⟩
  | updateCommentOp cid p =>
    simp only [opWorkspace, Option.bind_eq_some, Option.map_eq_some'] at hw
    obtain ⟨c, hc, t, ht, pr, hp, hwp⟩ := hw
    subst hwp
    by_cases hauth : (c.author_id == actor) = true
    · have happ : applyOp (Op.updateCommentOp cid p) s actor now
          = .error (.forbidden "Not a member of workspace") := by
        simp [applyOp, update_comment, hc, hauth, ht, _assert_comment_access, hp, hm, Except.map]
      exact ⟨by rw [happ]; rfl, execOp_eq_of_error happ⟩
    · rw [Bool.not_eq_true] at hauth
      have happ : applyOp (Op.updateCommentOp cid p) s actor now
          = .error (.forbidden "Cannot edit this comment") := by
        simp [applyOp, update_comment, hc, hauth, Except.map]
      exact ⟨by rw [happ]; rfl, execOp_eq_of_error happ⟩
  | deleteCommentOp cid =>
    simp only [opWorkspace, Option.bind_eq_some, Option.map_eq_some'] at hw
    obtain ⟨c, hc, t, ht, pr, hp, hwp⟩ := hw
    subst hwp
    by_cases hauth : (c.author_id == actor) = true
    · have happ : applyOp (Op.deleteCommentOp cid) s actor now
          = .error (.forbidden "Not a member of workspace") := by
        simp [applyOp, delete_comment, hc, hauth, ht, _assert_comment_access, hp, hm, Except.map]
      exact ⟨by rw [happ]; rfl, execOp_eq_of_error happ⟩
    · rw [Bool.not_eq_true] at hauth
      have happ : applyOp (Op.deleteCommentOp cid) s actor now
          = .error (.forbidden "Cannot delete this comment") := by
        simp [applyOp, delete_comment, hc, hauth, Except.map]
      exact ⟨by rw [happ]; rfl, execOp_eq_of_error happ⟩
  | listTagsOp wid =>
    simp only [opWorkspace, Option.some.injEq] at hw
    subst hw
    have happ : applyOp (Op.listTagsOp wid) s actor now
        = .error (.forbidden "Not a member of workspace") := by
      simp [applyOp, list_tags, Tags._ensure_workspace_membership, hm, Except.map]
    exact ⟨by rw [happ]; rfl, execOp_eq_of_error happ⟩
  | createTagOp p =>
    simp only [opWorkspace, Option.some.injEq] at hw
    subst hw
    have happ : applyOp (Op.createTagOp p) s actor now
        = .error (.forbidden "Not a member of workspace") := by
      simp [applyOp, create_tag, Tags._ensure_workspace_membership, hm, Except.map]
    exact ⟨by rw [happ]; rfl, execOp_eq_of_error happ⟩
  | updateTagOp gid p =>
    simp only [opWorkspace, Option.map_eq_some'] at hw
    obtain ⟨g, hg, hwp⟩ := hw
    subst hwp
    have happ : applyOp (Op.updateTagOp gid p) s actor now
        = .error (.forbidden "Not a member of workspace") := by
      simp [applyOp, update_tag, hg, Tags._ensure_workspace_membership, hm, Except.map]
    exact ⟨by rw [happ]; rfl, execOp_eq_of_error happ⟩
  | deleteTagOp gid =>
    simp only [opWorkspace, Option.map_eq_some'] at hw
    obtain ⟨g, hg, hwp⟩ := hw
    subst hwp
    have happ : applyOp (Op.deleteTagOp gid) s actor now
        = .error (.forbidden "Not a member of workspace") := by
      simp [applyOp, delete_tag, hg, Tags._ensure_workspace_membership, hm, Except.map]
    exact ⟨by rw [happ]; rfl, execOp_eq_of_error happ⟩
  | assignTagOp tid gid =>
    simp only [opWorkspace, Option.map_eq_some'] at hw
    obtain ⟨g, hg, hwp⟩ := hw
    subst hwp
    cases hts : s.findTask tid with
    | none =>
      have happ : applyOp (Op.assignTagOp tid gid) s actor now
          = .error (.notFound "Task not found") := by
        simp [applyOp, assign_tag_to_task, hts, Except.map]
      exact ⟨by rw [happ]; rfl, execOp_eq_of_error happ⟩
    | some t =>
      have happ : applyOp (Op.assignTagOp tid gid) s actor now
          = .error (.forbidden "Not a member of workspace") := by
        simp [applyOp, assign_tag_to_task, hts, hg,
          Tags._ensure_workspace_membership, hm, Except.map]
      exact ⟨by rw [happ]; rfl, execOp_eq_of_error happ⟩
  | unassignTagOp tid gid =>
    simp only [opWorkspace, Option.map_eq_some'] at hw
    obtain ⟨g, hg, hwp⟩ := hw
    subst hwp
    cases hts : s.findTask tid with
    | none =>
      have happ : applyOp (Op.unassignTagOp tid gid) s actor now
          = .error (.notFound "Task not found") := by
        simp [applyOp, unassign_tag_from_task, hts, Except.map]
      exact ⟨by rw [happ]; rfl, execOp_eq_of_error happ⟩
    | some t =>
      have happ : applyOp (Op.unassignTagOp tid gid) s actor now
          = .error (.forbidden "Not a member of workspace") := by
        simp [applyOp, unassign_tag_from_task, hts, hg,
          Tags._ensure_workspace_membership, hm, Except.map]
      exact ⟨by rw [happ]; rfl, execOp_eq_of_error happ⟩
  | listAttachmentsOp tid =>
    simp only [opWorkspace, Option.bind_eq_some, Option.map_eq_some'] at hw
    obtain ⟨t, ht, pr, hp, hwp⟩ := hw
    subst hwp
    have happ : applyOp (Op.listAttachmentsOp tid) s actor now
        = .error (.forbidden "Not a member of workspace") := by
      simp [applyOp, list_attachments, ht, Attachments._ensure_task_access, hp, hm, Except.map]
    exact ⟨by rw [happ]; rfl, execOp_eq_of_error happ⟩
  | createAttachmentOp tid p =>
    simp only [opWorkspace, Option.bind_eq_some, Option.map_eq_some'] at hw
    obtain ⟨t, ht, pr, hp, hwp⟩ := hw
    subst hwp
    have happ : applyOp (Op.createAttachmentOp tid p) s actor now
        = .error (.forbidden "Not a member of workspace") := by
      simp [applyOp, create_attachment, ht, Attachments._ensure_task_access, hp, hm, Except.map]
    exact ⟨by rw [happ]; rfl, execOp_eq_of_error happ⟩
  | deleteAttachmentOp aid =>
    simp only [opWorkspace, Option.bind_eq_some] at hw
    obtain ⟨a, ha, hrest⟩ := hw
    split at hrest
    next tid0 hat =>
      split at hrest
      next t hts =>
        simp only [Option.map_eq_some'] at hrest
        obtain ⟨pr, hp, hwp⟩ := hrest
        subst hwp
        have happ : applyOp (Op.deleteAttachmentOp aid) s actor now
            = .error (.forbidden "Not a member of workspace") := by
          simp [applyOp, delete_attachment, ha, hat, hts,
            Attachments._ensure_task_access, hp, hm, Except.map]
        exact ⟨by rw [happ]; rfl, execOp_eq_of_error happ⟩
      next hts =>
        simp only [Option.bind_eq_some, Option.map_eq_some'] at hrest
        obtain ⟨c, ⟨cid, hacid, hc⟩, t, ht, pr, hp, hwp⟩ := hrest
        subst hwp
        have happ : applyOp (Op.deleteAttachmentOp aid) s actor now
            = .error (.forbidden "Not a member of workspace") := by
          simp [applyOp, delete_attachment, ha, hat, hts, hacid, hc, ht,
            Attachments._ensure_task_access, hp, hm, Except.map]
        exact ⟨by rw [happ]; rfl, execOp_eq_of_error happ⟩
    next hat =>
      simp only [Option.bind_eq_some, Option.map_eq_some'] at hrest
      obtain ⟨c, ⟨cid, hacid, hc⟩, t, ht, pr, hp, hwp⟩ := hrest
      subst hwp
      have happ : applyOp (Op.deleteAttachmentOp aid) s actor now
          = .error (.forbidden "Not a member of workspace") := by
        simp [applyOp, delete_attachment, ha, hat, hacid, hc, ht,
          Attachments._ensure_task_access, hp, hm, Except.map]
      exact ⟨by rw [happ]; rfl, execOp_eq_of_error happ⟩
  | listCustomFieldsOp pid =>
    simp only [opWorkspace, Option.map_eq_some'] at hw
    obtain ⟨pr, hfind, hwp⟩ := hw
    subst hwp
    have happ : applyOp (Op.listCustomFieldsOp pid) s actor now
        = .error (.forbidden "Not a member of workspace") := by
      simp [applyOp, list_custom_fields, CustomFields._ensure_project_access,
        hfind, hm, Except.map]
    exact ⟨by rw [happ]; rfl, execOp_eq_of_error happ⟩
  | createCustomFieldOp pid p =>
    simp only [opWorkspace, Option.map_eq_some'] at hw
    obtain ⟨pr, hfind, hwp⟩ := hw
    subst hwp
    have happ : applyOp (Op.createCustomFieldOp pid p) s actor now
        = .error (.forbidden "Not a member of workspace") := by
      simp [applyOp, create_custom_field, CustomFields._ensure_project_access,
        hfind, hm, Except.map]
    exact ⟨by rw [happ]; rfl, execOp_eq_of_error happ⟩
  | deleteCustomFieldOp fid =>
    simp only [opWorkspace, Option.bind_eq_some, Option.map_eq_some'] at hw
    obtain ⟨f, hf, pr, hp, hwp⟩ := hw
    subst hwp
    have happ : applyOp (Op.deleteCustomFieldOp fid) s actor now
        = .error (.forbidden "Not a member of workspace") := by
      simp [applyOp, delete_custom_field, hf, CustomFields._ensure_project_access,
        hp, hm, Except.map]
    exact ⟨by rw [happ]; rfl, execOp_eq_of_error happ⟩
  | setTaskCustomFieldOp tid fid p =>
    simp only [opWorkspace, Option.bind_eq_some, Option.map_eq_some'] at hw
    obtain ⟨t, ht, pr, hp, hwp⟩ := hw
    subst hwp
    have happ : applyOp (Op.setTaskCustomFieldOp tid fid p) s actor now
        = .error (.forbidden "Not a member of workspace") := by
      simp [applyOp, set_task_custom_field, CustomFields._ensure_task_access,
        CustomFields._ensure_project_access, ht, hp, hm, Except.map]
    exact ⟨by rw [happ]; rfl, execOp_eq_of_error happ⟩
  | clearTaskCustomFieldOp tid fid =>
    simp only [opWorkspace, Option.bind_eq_some, Option.map_eq_some'] at hw
    obtain ⟨t, ht, pr, hp, hwp⟩ := hw
    subst hwp
    have happ : applyOp (Op.clearTaskCustomFieldOp tid fid) s actor now
        = .error (.forbidden "Not a member of workspace") := by
      simp [applyOp, clear_task_custom_field, CustomFields._ensure_task_access,
        CustomFields._ensure_project_access, ht, hp, hm, Except.map]
    exact ⟨by rw [happ]; rfl, execOp_eq_of_error happ⟩
  | listTeamsOp wid =>
    simp only [opWorkspace, Option.some.injEq] at hw
    subst hw
    have happ : applyOp (Op.listTeamsOp wid) s actor now
        = .error (.forbidden "Not a member of workspace") := by
      simp [applyOp, list_teams, Teams._ensure_workspace_membership, hm, Except.map]
    exact ⟨by rw [happ]; rfl, execOp_eq_of_error happ⟩
  | createTeamOp p =>
    simp only [opWorkspace, Option.some.injEq] at hw
    subst hw
    have happ : applyOp (Op.createTeamOp p) s actor now
        = .error (.forbidden "Not a member of workspace") := by
      simp [applyOp, create_team, Teams._ensure_workspace_membership, hm, Except.map]
    exact ⟨by rw [happ]; rfl, execOp_eq_of_error happ⟩
  | addTeamMemberOp teamId p =>
    simp only [opWorkspace, Option.map_eq_some'] at hw
    obtain ⟨team, hteam, hwp⟩ := hw
    subst hwp
    have happ : applyOp (Op.addTeamMemberOp teamId p) s actor now
        = .error (.forbidden "Not a member of workspace") := by
      simp [applyOp, add_team_member, hteam, Teams._ensure_workspace_membership, hm, Except.map]
    exact ⟨by rw [happ]; rfl, execOp_eq_of_error happ⟩
  | removeTeamMemberOp teamId uid =>
    simp only [opWorkspace, Option.map_eq_some'] at hw
    obtain ⟨team, hteam, hwp⟩ := hw
    subst hwp
    have happ : applyOp (Op.removeTeamMemberOp teamId uid) s actor now
        = .error (.forbidden "Not a member of workspace") := by
      simp [applyOp, remove_team_member, hteam, Teams._ensure_workspace_membership, hm, Except.map]
    exact ⟨by rw [happ]; rfl, execOp_eq_of_error happ⟩

/-- Witness for C1: user 3 holds no membership row; reading task 40 (whose
chain resolves to workspace 10) is rejected and the demo store is unchanged. -/
theorem membership_gates_all_operations_witness :
    (applyOp (Op.readTaskOp 40) demoStore 3 0).isOk = false ∧
    execOp (Op.readTaskOp 40) demoStore 3 0 = demoStore :=
  membership_gates_all_operations (Op.readTaskOp 40) demoStore 3 0 10
    ⟨by decide, by decide⟩ (by decide) (by decide)

/-! ### `OwnersAreMembers` is an invariant of the operation surface

The hypothesis of the C1 theorem is justified below: every operation maps a
store in which owners are members to another such store. The key facts from
the source are that `create_workspace` inserts the creator's membership row
in the same transaction, `create_project` makes the membership-checked actor
the owner, no update schema exposes an owner column, and membership rows are
deleted only together with their workspace (and all of its projects). -/

/-- Membership rows unchanged and entity rows drawn from the old store
preserve the invariant. -/
theorem ownersAreMembers_of_subset {s s' : Store}
    (hInv : OwnersAreMembers s)
    (hmem : s'.memberships = s.memberships)
    (hws : ∀ w ∈ s'.workspaces, w ∈ s.workspaces)
    (hpr : ∀ p ∈ s'.projects, p ∈ s.projects) : OwnersAreMembers s' := by
  constructor
  · intro w hw
    have h := hInv.1 w (hws w hw)
    rw [Store.isMember, hmem]
    exact h
  · intro p hp uid huid
    have h := hInv.2 p (hpr p hp) uid huid
    rw [Store.isMember, hmem]
    exact h

theorem any_append_left {α : Type} {l₁ l₂ : List α} {p : α → Bool}
    (h : l₁.any p = true) : (l₁ ++ l₂).any p = true := by
  simp [List.any_append, h]

/-- `projectCascadeStore` never touches memberships or workspaces, and only
filters the project table. -/
theorem projectCascadeStore_parts (s : Store) (pid : Nat) :
    (projectCascadeStore s pid).memberships = s.memberships ∧
    (projectCascadeStore s pid).workspaces = s.workspaces ∧
    (projectCascadeStore s pid).projects = s.projects.filter (fun q => q.id != pid) :=
  ⟨rfl, rfl, rfl⟩

theorem foldl_projectCascade_parts :
    ∀ (l : List Nat) (s : Store),
      ((l.foldl projectCascadeStore s).memberships = s.memberships) ∧
      ((l.foldl projectCascadeStore s).workspaces = s.workspaces) ∧
      (∀ p ∈ (l.foldl projectCascadeStore s).projects, p ∈ s.projects) := by
  intro l
  induction l with
  | nil => exact fun s => ⟨rfl, rfl, fun p hp => hp⟩
  | cons a l ih =>
    intro s
    rw [List.foldl_cons]
    refine ⟨?_, ?_, ?_⟩
    · rw [(ih (projectCascadeStore s a)).1]
      exact (projectCascadeStore_parts s a).1
    · rw [(ih (projectCascadeStore s a)).2.1]
      exact (projectCascadeStore_parts s a).2.1
    · intro p hp
      have h := (ih (projectCascadeStore s a)).2.2 p hp
      rw [(projectCascadeStore_parts s a).2.2] at h
      exact List.mem_of_mem_filter h

/-- `nullTeamRefs` only clears team references: owner and workspace of every
produced row are those of a row of the input. -/
theorem nullTeamRefs_fields {projects : List Project} {dead : List Nat} {p : Project}
    (hp : p ∈ nullTeamRefs projects dead) :
    ∃ x ∈ projects, p.owner_id = x.owner_id ∧ p.workspace_id = x.workspace_id := by
  rw [nullTeamRefs, List.mem_map] at hp
  obtain ⟨x, hx, hgx⟩ := hp
  refine ⟨x, hx, ?_, ?_⟩ <;> rw [← hgx] <;> cases ht : x.team_id <;> simp [ht] <;> split <;> simp

/-- Every operation preserves the owners-are-members invariant. -/
theorem applyOp_preserves_ownersAreMembers :
    ∀ (op : Op) (s : Store) (actor now : Nat) (s' : Store),
      applyOp op s actor now = .ok s' →
      OwnersAreMembers s →
      OwnersAreMembers s' := by
  intro op s actor now s' hok hInv
  cases op with
  | readWorkspaceOp wid =>
    simp only [applyOp] at hok
    cases hres : read_workspace s actor wid with
    | error e => rw [hres] at hok; exact absurd hok (by simp [Except.map])
    | ok v =>
      rw [hres] at hok
      simp only [Except.map, Except.ok.injEq] at hok
      exact hok ▸ hInv
  | updateWorkspaceOp wid p =>
    simp only [applyOp] at hok
    cases hres : update_workspace s actor now wid p with
    | error e => rw [hres] at hok; exact absurd hok (by simp [Except.map])
    | ok v =>
      rw [hres] at hok
      simp only [Except.map, Except.ok.injEq] at hok
      subst hok
      unfold update_workspace at hres
      split at hres
      · exact absurd hres (by simp)
      next ws hfind =>
        split at hres
        next hown =>
          rw [Except.ok.injEq] at hres
          constructor
          · intro x hx
            rw [show v.2.workspaces
                  = s.workspaces.map (fun y => if y.id == wid then
                      (match p.name with
                       | some n => { ws with name := n, updated_at := now }
                       | none => ws) else y) from by rw [← hres]] at hx
            rw [List.mem_map] at hx
            obtain ⟨y, hy, hfy⟩ := hx
            have hmemEq : v.2.memberships = s.memberships := by rw [← hres]
            rw [Store.isMember, hmemEq]
            by_cases hyid : (y.id == wid) = true
            · have hfields : x.owner_id = ws.owner_id ∧ x.id = ws.id := by
                rw [← hfy]
                cases hn : p.name <;> simp [hyid, hn]
              rw [hfields.1, hfields.2]
              exact hInv.1 ws (List.mem_of_find?_eq_some hfind)
            · rw [Bool.not_eq_true] at hyid
              rw [← hfy]
              simp only [hyid]
              rw [if_neg (by simp)]
              exact hInv.1 y hy
          · intro q hq uid huid
            have hprEq : v.2.projects = s.projects := by rw [← hres]
            have hmemEq : v.2.memberships = s.memberships := by rw [← hres]
            rw [hprEq] at hq
            rw [Store.isMember, hmemEq]
            exact hInv.2 q hq uid huid
        next hown => exact absurd hres (by simp)
  | deleteWorkspaceOp wid =>
    simp only [applyOp] at hok
    cases hres : delete_workspace s actor wid with
    | error e => rw [hres] at hok; exact absurd hok (by simp [Except.map])
    | ok v =>
      rw [hres] at hok
      simp only [Except.map, Except.ok.injEq] at hok
      subst hok
      unfold delete_workspace at hres
      split at hres
      · exact absurd hres (by simp)
      next ws hfind =>
        split at hres
        next hown =>
          rw [Except.ok.injEq, Prod.mk.injEq] at hres
          obtain ⟨-, hs⟩ := hres
          set deadProjects :=
            (s.projects.filter (fun q => q.workspace_id == wid)).map (fun q => q.id) with hdp
          set deadTeams :=
            (s.teams.filter (fun t => t.workspace_id == wid)).map (fun t => t.id) with hdt
          have hfold := foldl_projectCascade_parts deadProjects s
          have hwsEq : v.2.workspaces
              = (deadProjects.foldl projectCascadeStore s).workspaces.filter
                  (fun x => x.id != wid) := by rw [← hs]
          have hmemEq : v.2.memberships
              = (deadProjects.foldl projectCascadeStore s).memberships.filter
                  (fun m => m.workspace_id != wid) := by rw [← hs]
          have hprEq : v.2.projects
              = nullTeamRefs
                  ((deadProjects.foldl projectCascadeStore s).projects.filter
                    (fun q => q.workspace_id != wid)) deadTeams := by rw [← hs]
          constructor
          · intro x hx
            rw [hwsEq, hfold.2.1, List.mem_filter] at hx
            obtain ⟨hxold, hxne⟩ := hx
            have h := hInv.1 x hxold
            rw [Store.isMember, List.any_eq_true] at h
            obtain ⟨m, hmmem, hmpred⟩ := h
            rw [Store.isMember, hmemEq, hfold.1, List.any_eq_true]
            refine ⟨m, List.mem_filter.2 ⟨hmmem, ?_⟩, hmpred⟩
            rw [Bool.and_eq_true] at hmpred
            have hmw : m.workspace_id = x.id := by simpa using hmpred.2
            rw [hmw]
            exact hxne
          · intro q hq uid huid
            rw [hprEq] at hq
            obtain ⟨x, hx, hqo, hqw⟩ := nullTeamRefs_fields hq
            rw [List.mem_filter] at hx
            obtain ⟨hxfold, hxne⟩ := hx
            have hxold : x ∈ s.projects := hfold.2.2 x hxfold
            rw [hqo] at huid
            have h := hInv.2 x hxold uid huid
            rw [Store.isMember, List.any_eq_true] at h
            obtain ⟨m, hmmem, hmpred⟩ := h
            rw [Store.isMember, hmemEq, hfold.1, List.any_eq_true, hqw]
            refine ⟨m, List.mem_filter.2 ⟨hmmem, ?_⟩, hmpred⟩
            rw [Bool.and_eq_true] at hmpred
            have hmw : m.workspace_id = x.workspace_id := by simpa using hmpred.2
            rw [hmw]
            exact hxne
        next hown => exact absurd hres (by simp)
  | listProjectsOp wid =>
    simp only [applyOp] at hok
    cases hres : list_projects s actor wid with
    | error e => rw [hres] at hok; exact absurd hok (by simp [Except.map])
    | ok v =>
      rw [hres] at hok
      simp only [Except.map, Except.ok.injEq] at hok
      exact hok ▸ hInv
  | createProjectOp p =>
    simp only [applyOp] at hok
    cases hres : create_project s actor now p with
    | error e => rw [hres] at hok; exact absurd hok (by simp [Except.map])
    | ok v =>
      rw [hres] at hok
      simp only [Except.map, Except.ok.injEq] at hok
      subst hok
      unfold create_project at hres
      split at hres
      next hmem =>
        rw [Except.ok.injEq] at hres
        constructor
        · intro w hw
          have hwsEq : v.2.workspaces = s.workspaces := by rw [← hres]
          have hmemEq : v.2.memberships = s.memberships := by rw [← hres]
          rw [hwsEq] at hw
          rw [Store.isMember, hmemEq]
          exact hInv.1 w hw
        · intro q hq uid huid
          have hmemEq : v.2.memberships = s.memberships := by rw [← hres]
          have hprEq : v.2.projects = s.projects ++
              [{ id := s.next_id, name := p.name, description := p.description,
                 workspace_id := p.workspace_id, team_id := p.team_id,
                 owner_id := some actor, is_public := p.is_public,
                 created_at := now, updated_at := now }] := by rw [← hres]
          rw [hprEq, List.mem_append] at hq
          rw [Store.isMember, hmemEq]
          cases hq with
          | inl hold => exact hInv.2 q hold uid huid
          | inr hnew =>
            rw [List.mem_singleton] at hnew
            subst hnew
            simp only at huid
            rw [Option.some.injEq] at huid
            subst huid
            exact hmem
      next hmem => exact absurd hres (by simp)
  | readProjectOp pid =>
    simp only [applyOp] at hok
    cases hres : read_project s actor pid with
    | error e => rw [hres] at hok; exact absurd hok (by simp [Except.map])
    | ok v =>
      rw [hres] at hok
      simp only [Except.map, Except.ok.injEq] at hok
      exact hok ▸ hInv
  | updateProjectOp pid p =>
    simp only [applyOp] at hok
    cases hres : update_project s actor now pid p with
    | error e => rw [hres] at hok; exact absurd hok (by simp [Except.map])
    | ok v =>
      rw [hres] at hok
      simp only [Except.map, Except.ok.injEq] at hok
      subst hok
      unfold update_project at hres
      split at hres
      · exact absurd hres (by simp)
      next pr hfind =>
        split at hres
        next hown =>
          rw [Except.ok.injEq] at hres
          constructor
          · intro w hw
            have hwsEq : v.2.workspaces = s.workspaces := by rw [← hres]
            have hmemEq : v.2.memberships = s.memberships := by rw [← hres]
            rw [hwsEq] at hw
            rw [Store.isMember, hmemEq]
            exact hInv.1 w hw
          · intro q hq uid huid
            have hmemEq : v.2.memberships = s.memberships := by rw [← hres]
            have hprEq : v.2.projects = s.projects.map
                (fun x => if x.id == pid then applyProjectUpdate pr p now else x) := by
              rw [← hres]
            rw [hprEq, List.mem_map] at hq
            obtain ⟨y, hy, hfy⟩ := hq
            rw [Store.isMember, hmemEq]
            by_cases hyid : (y.id == pid) = true
            · have hfields : q.owner_id = pr.owner_id ∧ q.workspace_id = pr.workspace_id := by
                rw [← hfy]
                simp [hyid, applyProjectUpdate_eq]
              rw [hfields.1] at huid
              rw [hfields.2]
              exact hInv.2 pr (List.mem_of_find?_eq_some hfind) uid huid
            · rw [Bool.not_eq_true] at hyid
              have hqy : q = y := by rw [← hfy]; simp [hyid]
              subst hqy
              exact hInv.2 q hy uid huid
        next hown => exact absurd hres (by simp)
  | deleteProjectOp pid =>
    simp only [applyOp] at hok
    cases hres : delete_project s actor pid with
    | error e => rw [hres] at hok; exact absurd hok (by simp [Except.map])
    | ok v =>
      rw [hres] at hok
      simp only [Except.map, Except.ok.injEq] at hok
      subst hok
      unfold delete_project at hres
      split at hres
      · exact absurd hres (by simp)
      next pr hfind =>
        split at hres
        next hown =>
          rw [Except.ok.injEq, Prod.mk.injEq] at hres
          obtain ⟨-, hs⟩ := hres
          refine ownersAreMembers_of_subset hInv ?_ ?_ ?_
          · rw [← hs]
            exact (projectCascadeStore_parts s pid).1
          · intro w hw
            rw [← hs, (projectCascadeStore_parts s pid).2.1] at hw
            exact hw
          · intro q hq
            rw [← hs, (projectCascadeStore_parts s pid).2.2] at hq
            exact List.mem_of_mem_filter hq
        next hown => exact absurd hres (by simp)
  | listSectionsOp pid =>
    simp only [applyOp] at hok
    cases hres : list_sections s actor pid with
    | error e => rw [hres] at hok; exact absurd hok (by simp [Except.map])
    | ok v =>
      rw [hres] at hok
      simp only [Except.map, Except.ok.injEq] at hok
      exact hok ▸ hInv
  | createSectionOp p =>
    simp only [applyOp] at hok
    cases hres : create_section s actor now p with
    | error e => rw [hres] at hok; exact absurd hok (by simp [Except.map])
    | ok v =>
      rw [hres] at hok
      simp only [Except.map, Except.ok.injEq] at hok
      subst hok
      unfold create_section at hres
      split at hres
      · exact absurd hres (by simp)
      split at hres
      · exact absurd hres (by simp)
      rw [Except.ok.injEq] at hres
      refine ownersAreMembers_of_subset hInv ?_ (fun w hw => ?_) (fun q hq => ?_) <;>
        rw [← hres] at * <;>
        first | rfl | (split <;> rfl) | exact hw | exact hq | (split at hw <;> exact hw) | (split at hq <;> exact hq)
  | updateSectionOp sid p =>
    simp only [applyOp] at hok
    cases hres : update_section s actor sid p with
    | error e => rw [hres] at hok; exact absurd hok (by simp [Except.map])
    | ok v =>
      rw [hres] at hok
      simp only [Except.map, Except.ok.injEq] at hok
      subst hok
      unfold update_section at hres
      split at hres
      · exact absurd hres (by simp)
      split at hres
      · exact absurd hres (by simp)
      split at hres
      · exact absurd hres (by simp)
      rw [Except.ok.injEq] at hres
      refine ownersAreMembers_of_subset hInv ?_ (fun w hw => ?_) (fun q hq => ?_) <;>
        rw [← hres] at * <;>
        first | rfl | (split <;> rfl) | exact hw | exact hq | (split at hw <;> exact hw) | (split at hq <;> exact hq)
  | deleteSectionOp sid =>
    simp only [applyOp] at hok
    cases hres : delete_section s actor sid with
    | error e => rw [hres] at hok; exact absurd hok (by simp [Except.map])
    | ok v =>
      rw [hres] at hok
      simp only [Except.map, Except.ok.injEq] at hok
      subst hok
      unfold delete_section at hres
      split at hres
      · exact absurd hres (by simp)
      split at hres
      · exact absurd hres (by simp)
      split at hres
      · exact absurd hres (by simp)
      rw [Except.ok.injEq] at hres
      refine ownersAreMembers_of_subset hInv ?_ (fun w hw => ?_) (fun q hq => ?_) <;>
        rw [← hres] at * <;>
        first | rfl | (split <;> rfl) | exact hw | exact hq | (split at hw <;> exact hw) | (split at hq <;> exact hq)
  | listTasksOp q =>
    simp only [applyOp] at hok
    cases hres : list_tasks s actor q with
    | error e => rw [hres] at hok; exact absurd hok (by simp [Except.map])
    | ok v =>
      rw [hres] at hok
      simp only [Except.map, Except.ok.injEq] at hok
      exact hok ▸ hInv
  | createTaskOp p =>
    simp only [applyOp] at hok
    cases hres : create_task s actor now p with
    | error e => rw [hres] at hok; exact absurd hok (by simp [Except.map])
    | ok v =>
      rw [hres] at hok
      simp only [Except.map, Except.ok.injEq] at hok
      subst hok
      unfold create_task at hres
      split at hres
      · exact absurd hres (by simp)
      split at hres
      · exact absurd hres (by simp)
      rw [Except.ok.injEq] at hres
      refine ownersAreMembers_of_subset hInv ?_ (fun w hw => ?_) (fun q hq => ?_) <;>
        rw [← hres] at * <;>
        first | rfl | (split <;> rfl) | exact hw | exact hq | (split at hw <;> exact hw) | (split at hq <;> exact hq)
  | readTaskOp tid =>
    simp only [applyOp] at hok
    cases hres : read_task s actor tid with
    | error e => rw [hres] at hok; exact absurd hok (by simp [Except.map])
    | ok v =>
      rw [hres] at hok
      simp only [Except.map, Except.ok.injEq] at hok
      exact hok ▸ hInv
  | updateTaskOp tid p =>
    simp only [applyOp] at hok
    cases hres : update_task s actor now tid p with
    | error e => rw [hres] at hok; exact absurd hok (by simp [Except.map])
    | ok v =>
      rw [hres] at hok
      simp only [Except.map, Except.ok.injEq] at hok
      subst hok
      unfold update_task at hres
      split at hres
      · exact absurd hres (by simp)
      split at hres
      · exact absurd hres (by simp)
      split at hres
      · exact absurd hres (by simp)
      rw [Except.ok.injEq] at hres
      refine ownersAreMembers_of_subset hInv ?_ (fun w hw => ?_) (fun q hq => ?_) <;>
        rw [← hres] at * <;>
        first | rfl | (split <;> rfl) | exact hw | exact hq | (split at hw <;> exact hw) | (split at hq <;> exact hq)
  | deleteTaskOp tid =>
    simp only [applyOp] at hok
    cases hres : delete_task s actor tid with
    | error e => rw [hres] at hok; exact absurd hok (by simp [Except.map])
    | ok v =>
      rw [hres] at hok
      simp only [Except.map, Except.ok.injEq] at hok
      subst hok
      unfold delete_task at hres
      split at hres
      · exact absurd hres (by simp)
      split at hres
      · exact absurd hres (by simp)
      split at hres
      · exact absurd hres (by simp)
      rw [Except.ok.injEq] at hres
      refine ownersAreMembers_of_subset hInv ?_ (fun w hw => ?_) (fun q hq => ?_) <;>
        rw [← hres] at * <;>
        first | rfl | (split <;> rfl) | exact hw | exact hq | (split at hw <;> exact hw) | (split at hq <;> exact hq)
  | listCommentsOp tid =>
    simp only [applyOp] at hok
    cases hres : list_task_comments s actor tid with
    | error e => rw [hres] at hok; exact absurd hok (by simp [Except.map])
    | ok v =>
      rw [hres] at hok
      simp only [Except.map, Except.ok.injEq] at hok
      exact hok ▸ hInv
  | createCommentOp tid body =>
    simp only [applyOp] at hok
    cases hres : create_task_comment s actor now tid body with
    | error e => rw [hres] at hok; exact absurd hok (by simp [Except.map])
    | ok v =>
      rw [hres] at hok
      simp only [Except.map, Except.ok.injEq] at hok
      subst hok
      unfold create_task_comment at hres
      split at hres
      · exact absurd hres (by simp)
      split at hres
      · exact absurd hres (by simp)
      rw [Except.ok.injEq] at hres
      refine ownersAreMembers_of_subset hInv ?_ (fun w hw => ?_) (fun q hq => ?_) <;>
        rw [← hres] at * <;>
        first | rfl | (split <;> rfl) | exact hw | exact hq | (split at hw <;> exact hw) | (split at hq <;> exact hq)
  | updateCommentOp cid p =>
    simp only [applyOp] at hok
    cases hres : update_comment s actor now cid p with
    | error e => rw [hres] at hok; exact absurd hok (by simp [Except.map])
    | ok v =>
      rw [hres] at hok
      simp only [Except.map, Except.ok.injEq] at hok
      subst hok
      unfold update_comment at hres
      split at hres
      · exact absurd hres (by simp)
      split at hres
      next hauth =>
        split at hres
        · exact absurd hres (by simp)
        split at hres
        · exact absurd hres (by simp)
        rw [Except.ok.injEq] at hres
        refine ownersAreMembers_of_subset hInv ?_ (fun w hw => ?_) (fun q hq => ?_) <;>
          rw [← hres] at * <;>
          first | rfl | (split <;> rfl) | exact hw | exact hq | (split at hw <;> exact hw) | (split at hq <;> exact hq)
      next hauth => exact absurd hres (by simp)
  | deleteCommentOp cid =>
    simp only [applyOp] at hok
    cases hres : delete_comment s actor cid with
    | error e => rw [hres] at hok; exact absurd hok (by simp [Except.map])
    | ok v =>
      rw [hres] at hok
      simp only [Except.map, Except.ok.injEq] at hok
      subst hok
      unfold delete_comment at hres
      split at hres
      · exact absurd hres (by simp)
      split at hres
      next hauth =>
        split at hres
        · exact absurd hres (by simp)
        split at hres
        · exact absurd hres (by simp)
        rw [Except.ok.injEq] at hres
        refine ownersAreMembers_of_subset hInv ?_ (fun w hw => ?_) (fun q hq => ?_) <;>
          rw [← hres] at * <;>
          first | rfl | (split <;> rfl) | exact hw | exact hq | (split at hw <;> exact hw) | (split at hq <;> exact hq)
      next hauth => exact absurd hres (by simp)
  | listTagsOp wid =>
    simp only [applyOp] at hok
    cases hres : list_tags s actor wid with
    | error e => rw [hres] at hok; exact absurd hok (by simp [Except.map])
    | ok v =>
      rw [hres] at hok
      simp only [Except.map, Except.ok.injEq] at hok
      exact hok ▸ hInv
  | createTagOp p =>
    simp only [applyOp] at hok
    cases hres : create_tag s actor now p with
    | error e => rw [hres] at hok; exact absurd hok (by simp [Except.map])
    | ok v =>
      rw [hres] at hok
      simp only [Except.map, Except.ok.injEq] at hok
      subst hok
      unfold create_tag at hres
      split at hres
      · exact absurd hres (by simp)
      rw [Except.ok.injEq] at hres
      refine ownersAreMembers_of_subset hInv ?_ (fun w hw => ?_) (fun q hq => ?_) <;>
        rw [← hres] at * <;>
        first | rfl | (split <;> rfl) | exact hw | exact hq | (split at hw <;> exact hw) | (split at hq <;> exact hq)
  | updateTagOp gid p =>
    simp only [applyOp] at hok
    cases hres : update_tag s actor gid p with
    | error e => rw [hres] at hok; exact absurd hok (by simp [Except.map])
    | ok v =>
      rw [hres] at hok
      simp only [Except.map, Except.ok.injEq] at hok
      subst hok
      unfold update_tag at hres
      split at hres
      · exact absurd hres (by simp)
      split at hres
      · exact absurd hres (by simp)
      rw [Except.ok.injEq] at hres
      refine ownersAreMembers_of_subset hInv ?_ (fun w hw => ?_) (fun q hq => ?_) <;>
        rw [← hres] at * <;>
        first | rfl | (split <;> rfl) | exact hw | exact hq | (split at hw <;> exact hw) | (split at hq <;> exact hq)
  | deleteTagOp gid =>
    simp only [applyOp] at hok
    cases hres : delete_tag s actor gid with
    | error e => rw [hres] at hok; exact absurd hok (by simp [Except.map])
    | ok v =>
      rw [hres] at hok
      simp only [Except.map, Except.ok.injEq] at hok
      subst hok
      unfold delete_tag at hres
      split at hres
      · exact absurd hres (by simp)
      split at hres
      · exact absurd hres (by simp)
      rw [Except.ok.injEq] at hres
      refine ownersAreMembers_of_subset hInv ?_ (fun w hw => ?_) (fun q hq => ?_) <;>
        rw [← hres] at * <;>
        first | rfl | (split <;> rfl) | exact hw | exact hq | (split at hw <;> exact hw) | (split at hq <;> exact hq)
  | assignTagOp tid gid =>
    simp only [applyOp] at hok
    cases hres : assign_tag_to_task s actor tid gid with
    | error e => rw [hres] at hok; exact absurd hok (by simp [Except.map])
    | ok v =>
      rw [hres] at hok
      simp only [Except.map, Except.ok.injEq] at hok
      subst hok
      unfold assign_tag_to_task at hres
      split at hres
      · exact absurd hres (by simp)
      split at hres
      · exact absurd hres (by simp)
      split at hres
      · exact absurd hres (by simp)
      split at hres
      · exact absurd hres (by simp)
      split at hres
      · exact absurd hres (by simp)
      rw [Except.ok.injEq] at hres
      refine ownersAreMembers_of_subset hInv ?_ (fun w hw => ?_) (fun q hq => ?_) <;>
        rw [← hres] at * <;>
        first | rfl | (split <;> rfl) | exact hw | exact hq | (split at hw <;> exact hw) | (split at hq <;> exact hq)
  | unassignTagOp tid gid =>
    simp only [applyOp] at hok
    cases hres : unassign_tag_from_task s actor tid gid with
    | error e => rw [hres] at hok; exact absurd hok (by simp [Except.map])
    | ok v =>
      rw [hres] at hok
      simp only [Except.map, Except.ok.injEq] at hok
      subst hok
      unfold unassign_tag_from_task at hres
      split at hres
      · exact absurd hres (by simp)
      split at hres
      · exact absurd hres (by simp)
      split at hres
      · exact absurd hres (by simp)
      split at hres
      next hex =>
        rw [Except.ok.injEq] at hres
        refine ownersAreMembers_of_subset hInv ?_ (fun w hw => ?_) (fun q hq => ?_) <;>
          rw [← hres] at * <;>
          first | rfl | (split <;> rfl) | exact hw | exact hq | (split at hw <;> exact hw) | (split at hq <;> exact hq)
      next hex => exact absurd hres (by simp)
  | listAttachmentsOp tid =>
    simp only [applyOp] at hok
    cases hres : list_attachments s actor tid with
    | error e => rw [hres] at hok; exact absurd hok (by simp [Except.map])
    | ok v =>
      rw [hres] at hok
      simp only [Except.map, Except.ok.injEq] at hok
      exact hok ▸ hInv
  | createAttachmentOp tid p =>
    simp only [applyOp] at hok
    cases hres : create_attachment s actor now tid p with
    | error e => rw [hres] at hok; exact absurd hok (by simp [Except.map])
    | ok v =>
      rw [hres] at hok
      simp only [Except.map, Except.ok.injEq] at hok
      subst hok
      unfold create_attachment at hres
      split at hres
      · exact absurd hres (by simp)
      split at hres
      · exact absurd hres (by simp)
      rw [Except.ok.injEq] at hres
      refine ownersAreMembers_of_subset hInv ?_ (fun w hw => ?_) (fun q hq => ?_) <;>
        rw [← hres] at * <;>
        first | rfl | (split <;> rfl) | exact hw | exact hq | (split at hw <;> exact hw) | (split at hq <;> exact hq)
  | deleteAttachmentOp aid =>
    simp only [applyOp] at hok
    cases hres : delete_attachment s actor aid with
    | error e => rw [hres] at hok; exact absurd hok (by simp [Except.map])
    | ok v =>
      rw [hres] at hok
      simp only [Except.map, Except.ok.injEq] at hok
      subst hok
      unfold delete_attachment at hres
      simp only [] at hres
      repeat' split at hres
      all_goals
        first
        | (exfalso; simp at hres; done)
        | (rw [Except.ok.injEq] at hres
           refine ownersAreMembers_of_subset hInv ?_ (fun w hw => ?_) (fun q hq => ?_) <;>
             rw [← hres] at * <;>
             first | rfl | (split <;> rfl) | exact hw | exact hq | (split at hw <;> exact hw) | (split at hq <;> exact hq))
  | listCustomFieldsOp pid =>
    simp only [applyOp] at hok
    cases hres : list_custom_fields s actor pid with
    | error e => rw [hres] at hok; exact absurd hok (by simp [Except.map])
    | ok v =>
      rw [hres] at hok
      simp only [Except.map, Except.ok.injEq] at hok
      exact hok ▸ hInv
  | createCustomFieldOp pid p =>
    simp only [applyOp] at hok
    cases hres : create_custom_field s actor now pid p with
    | error e => rw [hres] at hok; exact absurd hok (by simp [Except.map])
    | ok v =>
      rw [hres] at hok
      simp only [Except.map, Except.ok.injEq] at hok
      subst hok
      unfold create_custom_field at hres
      split at hres
      · exact absurd hres (by simp)
      split at hres
      · exact absurd hres (by simp)
      rw [Except.ok.injEq] at hres
      refine ownersAreMembers_of_subset hInv ?_ (fun w hw => ?_) (fun q hq => ?_) <;>
        rw [← hres] at * <;>
        first | rfl | (split <;> rfl) | exact hw | exact hq | (split at hw <;> exact hw) | (split at hq <;> exact hq)
  | deleteCustomFieldOp fid =>
    simp only [applyOp] at hok
    cases hres : delete_custom_field s actor fid with
    | error e => rw [hres] at hok; exact absurd hok (by simp [Except.map])
    | ok v =>
      rw [hres] at hok
      simp only [Except.map, Except.ok.injEq] at hok
      subst hok
      unfold delete_custom_field at hres
      split at hres
      · exact absurd hres (by simp)
      split at hres
      · exact absurd hres (by simp)
      rw [Except.ok.injEq] at hres
      refine ownersAreMembers_of_subset hInv ?_ (fun w hw => ?_) (fun q hq => ?_) <;>
        rw [← hres] at * <;>
        first | rfl | (split <;> rfl) | exact hw | exact hq | (split at hw <;> exact hw) | (split at hq <;> exact hq)
  | setTaskCustomFieldOp tid fid p =>
    simp only [applyOp] at hok
    cases hres : set_task_custom_field s actor now tid fid p with
    | error e => rw [hres] at hok; exact absurd hok (by simp [Except.map])
    | ok v =>
      rw [hres] at hok
      simp only [Except.map, Except.ok.injEq] at hok
      subst hok
      unfold set_task_custom_field at hres
      split at hres
      · exact absurd hres (by simp)
      split at hres
      · exact absurd hres (by simp)
      split at hres
      · exact absurd hres (by simp)
      split at hres
      · exact absurd hres (by simp)
      split at hres
      · exact absurd hres (by simp)
      split at hres <;>
        (rw [Except.ok.injEq] at hres
         refine ownersAreMembers_of_subset hInv ?_ (fun w hw => ?_) (fun q hq => ?_) <;>
           rw [← hres] at * <;>
           first | rfl | (split <;> rfl) | exact hw | exact hq | (split at hw <;> exact hw) | (split at hq <;> exact hq))
  | clearTaskCustomFieldOp tid fid =>
    simp only [applyOp] at hok
    cases hres : clear_task_custom_field s actor tid fid with
    | error e => rw [hres] at hok; exact absurd hok (by simp [Except.map])
    | ok v =>
      rw [hres] at hok
      simp only [Except.map, Except.ok.injEq] at hok
      subst hok
      unfold clear_task_custom_field at hres
      split at hres
      · exact absurd hres (by simp)
      split at hres
      · exact absurd hres (by simp)
      split at hres
      · exact absurd hres (by simp)
      split at hres
      · exact absurd hres (by simp)
      rw [Except.ok.injEq] at hres
      refine ownersAreMembers_of_subset hInv ?_ (fun w hw => ?_) (fun q hq => ?_) <;>
        rw [← hres] at * <;>
        first | rfl | (split <;> rfl) | exact hw | exact hq | (split at hw <;> exact hw) | (split at hq <;> exact hq)
  | listTeamsOp wid =>
    simp only [applyOp] at hok
    cases hres : list_teams s actor wid with
    | error e => rw [hres] at hok; exact absurd hok (by simp [Except.map])
    | ok v =>
      rw [hres] at hok
      simp only [Except.map, Except.ok.injEq] at hok
      exact hok ▸ hInv
  | createTeamOp p =>
    simp only [applyOp] at hok
    cases hres : create_team s actor now p with
    | error e => rw [hres] at hok; exact absurd hok (by simp [Except.map])
    | ok v =>
      rw [hres] at hok
      simp only [Except.map, Except.ok.injEq] at hok
      subst hok
      unfold create_team at hres
      split at hres
      · exact absurd hres (by simp)
      rw [Except.ok.injEq] at hres
      refine ownersAreMembers_of_subset hInv ?_ (fun w hw => ?_) (fun q hq => ?_) <;>
        rw [← hres] at * <;>
        first | rfl | (split <;> rfl) | exact hw | exact hq | (split at hw <;> exact hw) | (split at hq <;> exact hq)
  | addTeamMemberOp teamId p =>
    simp only [applyOp] at hok
    cases hres : add_team_member s actor teamId p with
    | error e => rw [hres] at hok; exact absurd hok (by simp [Except.map])
    | ok v =>
      rw [hres] at hok
      simp only [Except.map, Except.ok.injEq] at hok
      subst hok
      unfold add_team_member at hres
      split at hres
      · exact absurd hres (by simp)
      split at hres
      · exact absurd hres (by simp)
      split at hres
      · exact absurd hres (by simp)
      rw [Except.ok.injEq] at hres
      refine ownersAreMembers_of_subset hInv ?_ (fun w hw => ?_) (fun q hq => ?_) <;>
        rw [← hres] at * <;>
        first | rfl | (split <;> rfl) | exact hw | exact hq | (split at hw <;> exact hw) | (split at hq <;> exact hq)
  | removeTeamMemberOp teamId uid =>
    simp only [applyOp] at hok
    cases hres : remove_team_member s actor teamId uid with
    | error e => rw [hres] at hok; exact absurd hok (by simp [Except.map])
    | ok v =>
      rw [hres] at hok
      simp only [Except.map, Except.ok.injEq] at hok
      subst hok
      unfold remove_team_member at hres
      split at hres
      · exact absurd hres (by simp)
      split at hres
      · exact absurd hres (by simp)
      split at hres
      next hex =>
        rw [Except.ok.injEq] at hres
        refine ownersAreMembers_of_subset hInv ?_ (fun w hw => ?_) (fun q hq => ?_) <;>
          rw [← hres] at * <;>
          first | rfl | (split <;> rfl) | exact hw | exact hq | (split at hw <;> exact hw) | (split at hq <;> exact hq)
      next hex => exact absurd hres (by simp)

/-- `create_workspace` (the one endpoint outside the workspace-resolving `Op`
surface) also preserves the invariant: it inserts the creator's membership row
for the fresh workspace in the same transaction. -/
theorem create_workspace_preserves_ownersAreMembers
    (s : Store) (actor now : Nat) (p : WorkspaceCreate) (w : Workspace) (s' : Store)
    (hok : create_workspace s actor now p = .ok (w, s'))
    (hInv : OwnersAreMembers s) : OwnersAreMembers s' := by
  unfold create_workspace at hok
  rw [Except.ok.injEq, Prod.mk.injEq] at hok
  obtain ⟨-, hs⟩ := hok
  constructor
  · intro x hx
    have hwsEq : s'.workspaces = s.workspaces ++
        [{ id := s.next_id, name := p.name, owner_id := actor,
           created_at := now, updated_at := now }] := by rw [← hs]
    have hmemEq : s'.memberships = s.memberships ++
        [{ user_id := actor, workspace_id := s.next_id }] := by rw [← hs]
    rw [hwsEq, List.mem_append] at hx
    rw [Store.isMember, hmemEq]
    cases hx with
    | inl hold => exact any_append_left (hInv.1 x hold)
    | inr hnew =>
      rw [List.mem_singleton] at hnew
      subst hnew
      simp
  · intro q hq uid huid
    have hprEq : s'.projects = s.projects := by rw [← hs]
    have hmemEq : s'.memberships = s.memberships ++
        [{ user_id := actor, workspace_id := s.next_id }] := by rw [← hs]
    rw [hprEq] at hq
    rw [Store.isMember, hmemEq]
    exact any_append_left (hInv.2 q hq uid huid)

end AsanaClone
